import Mathlib

/-!
# cmsv_api: protocol client, status decoder and link builders

A shallow embedding of `main.go`.

* Go `int` is the 64-bit two's-complement integer here (the masks `0x80000000` do not fit a
  32-bit `int`, so the program only compiles where `int` is 64 bits wide).  The decoder uses
  `&` with non-negative constants and `>>` by constants only, none of which can overflow, so
  the words are modelled as `Int` with `Int.land` (two's-complement AND) and `Int.shiftRight`
  (arithmetic shift); every theorem is stated for all integers and so covers the `int` range.
* The process-wide `config` variable is passed explicitly to the functions that read it.
* `fmt.Sprintf` is modelled for the verbs the program uses (`%s`, `%d`, `%v`, `%%`).
* The network and `encoding/json` are an explicit environment `Env`; a function that returns
  `(value, error)` returns a `Ret`, which also lists the requests made and the console lines
  printed, in order.
* A Go map is a function into `Option` (`none` where the key is absent) or, for a map literal,
  the association list of its entries.
* `printCompanyTree` recurses without bound in the source; here a first argument bounds the
  depth of the recursion and the result is `none` when the bound is exceeded, so that "the call
  returns `out`" is "some bound gives `some out`" and "the call does not return" is "every bound
  gives `none`".
* The auto-refresh goroutine and the handler of its button are a step relation over the
  variables they share.
-/

namespace CmsvApi

/-! ## Data model -/

/-- AppConfig holds all configuration values. -/
structure AppConfig where
  ServerURL : String
  APIPort : Int
  RTMPPort : Int
  RTSPPort : Int
  HLSPort : Int

/-- The conversion `uint8(x)` of Go: the low eight bits of `x`. -/
def uint8 (x : Int) : Nat := (x % 256).toNat

/-- EquipmentStatus represents the bit-by-bit status flags for equipment. -/
structure EquipmentStatus where
  -- S1 flags (32 bits)
  GPSValid : Bool -- s1:0 - GPS positioning status (0=invalid, 1=valid)
  ACCStatus : Bool -- s1:1 - ACC status (0=off, 1=on)
  LeftTurn : Bool -- s1:2 - Left turn status
  RightTurn : Bool -- s1:3 - Right turn status
  FatigueWarning : Bool -- s1:4 - Fatigue driving warning
  ForwardRotation : Bool -- s1:5 - Positive rotation state
  ReverseState : Bool -- s1:6 - Reverse state
  GPSAntennaPresent : Bool -- s1:7 - GPS antenna present
  HardDriveStatus : Int -- s1:8-9 - Hard drive status (0=not present, 1=present, 2=power down)
  ThreeGModuleStatus : Int -- s1:10-12 - 3G module status (0-5)
  QuiescentState : Bool -- s1:13 - Quiescent state
  OverspeedState : Bool -- s1:14 - Overspeed state
  GPSSupplement : Bool -- s1:15 - GPS supplement
  BatteryStatus : Bool -- s1:16 - Battery status
  NightState : Bool -- s1:17 - Night state
  OvercrowdingStatus : Bool -- s1:18 - Overcrowding status
  ParkingACCStatus : Bool -- s1:19 - Parking ACC status
  IO1Status : Bool -- s1:20 - IO1 status
  IO2Status : Bool -- s1:21 - IO2 status
  IO3Status : Bool -- s1:22 - IO3 status
  IO4Status : Bool -- s1:23 - IO4 status
  IO5Status : Bool -- s1:24 - IO5 status
  IO6Status : Bool -- s1:25 - IO6 status
  IO7Status : Bool -- s1:26 - IO7 status
  IO8Status : Bool -- s1:27 - IO8 status
  Drive2Status : Bool -- s1:28 - Drive 2 status
  HardDisk2Status : Int -- s1:29-30 - Hard disk 2 status
  HardDiskInvalid : Bool -- s1:31 - Hard disk status
  -- S2 flags (32 bits)
  OutOfAreaAlarm : Bool -- s2:0 - Out of area alarm
  LineAlarm : Bool -- s2:1 - Line alarm
  HighSpeedInAreaAlarm : Bool -- s2:2 - High speed in area
  LowSpeedInAreaAlarm : Bool -- s2:3 - Low speed in area
  HighSpeedOutsideAreaAlarm : Bool -- s2:4 - High speed outside area
  LowSpeedOutsideAreaAlarm : Bool -- s2:5 - Low speed outside area
  ParkingInAreaAlarm : Bool -- s2:6 - Parking in area alarm
  OutOfAreaParkingAlarm : Bool -- s2:7 - Out of area parking alarm
  DailyFlowWarning : Bool -- s2:8 - Daily flow warning
  DailyFlowExceeded : Bool -- s2:9 - Daily flow exceeded
  MonthlyTrafficWarning : Bool -- s2:10 - Monthly traffic warning
  MonthlyFlowExceeded : Bool -- s2:11 - Monthly flow exceeded
  BackupBatteryPowered : Bool -- s2:12 - Host powered by backup battery
  DoorOpen : Bool -- s2:13 - Door open
  VehicleFortification : Bool -- s2:14 - Vehicle fortification
  BatteryVoltageLow : Bool -- s2:15 - Battery voltage too low
  EngineStatus : Bool -- s2:17 - Engine status
  LastValidGPSInfo : Bool -- s2:18 - Last valid GPS information
  OnBoardStatus : Bool -- s2:19 - On board status (0=no load, 1=heavy load)
  OperationStatus : Bool -- s2:20 - Operation status (1=shutdown)
  LatLngNotEncrypted : Bool -- s2:21 - Latitude and longitude not encrypted
  NormalOilCircuit : Bool -- s2:22 - Normal oil circuit (1=disconnected)
  CircuitOK : Bool -- s2:23 - Circuit OK (1=disconnected)
  DoorUnlock : Bool -- s2:24 - Door unlock (1=locked)
  AreaOverspeedPlatform : Bool -- s2:25 - Area overspeed alarm (platform)
  AreaOverspeedPlatform2 : Bool -- s2:26 - Area overspeed alarm (platform)
  IntoAreaAlarm : Bool -- s2:27 - Into area alarm (platform)
  LineOffset : Bool -- s2:28 - Line offset (platform)
  TimePeriodOverspeed : Bool -- s2:29 - Time period overspeed (platform)
  TimePeriodLowSpeed : Bool -- s2:30 - Time period low speed (platform)
  FatigueDriving : Bool -- s2:31 - Fatigue driving (platform)
  -- S3 flags (32 bits)
  VideoLostChannels : Nat -- s3:0-7 - Channel video lost
  VideoChannels : Nat -- s3:8-15 - Channel video
  IOInputs916 : Nat -- s3:16-23 - IO inputs 9-16
  IOOutput14 : Nat -- s3:24-27 - IO output 1-4
  PositioningType : Nat -- s3:28-29 - Positioning (0=GPS, 1=base station, 2=WiFi)
  AbnormalDrivingState : Bool -- s3:30 - Abnormal driving state (passenger cars forbidden)
  MountainForbidden : Bool -- s3:31 - Mountain forbidden line
  -- S4 flags (32 bits)
  PositioningCoordType : Nat -- s4:0-2 - Positioning type (0=WGS84, 1=GCJ-02, 2=BD09)
  EmergencyAlarm : Bool -- s4:3 - Emergency alarm
  AreaOverspeedAlarm : Bool -- s4:4 - Area overspeed alarm
  FatigueDrivingReport : Bool -- s4:5 - Fatigue driving report
  DangerousDrivingAlarm : Bool -- s4:6 - Dangerous driving behavior alarm
  GNSSModuleFault : Bool -- s4:7 - GNSS module fault alarm
  GNSSAntennaDisconnected : Bool -- s4:8 - GNSS antenna not connected/cut off
  GNSSAntennaShortCircuit : Bool -- s4:9 - GNSS antenna short circuit
  TerminalLCDFault : Bool -- s4:10 - Terminal LCD/display failure
  TTSModuleFault : Bool -- s4:11 - TTS module fault
  CameraFailure : Bool -- s4:12 - Camera failure
  CumulativeDrivingOvertime : Bool -- s4:13 - Cumulative driving overtime
  OvertimeParking : Bool -- s4:14 - Overtime parking
  IntoArea : Bool -- s4:15 - Into area
  RouteAlarm : Bool -- s4:16 - Route alarm
  TravelTimeAbnormal : Bool -- s4:17 - Insufficient/excessive travel time
  RouteDeviationAlarm : Bool -- s4:18 - Route deviation alarm
  VSSFailure : Bool -- s4:19 - Vehicle VSS failure
  FuelQuantityAbnormal : Bool -- s4:20 - Abnormal fuel quantity
  VehicleTheftAlarm : Bool -- s4:21 - Vehicle theft alarm
  IllegalIgnitionAlarm : Bool -- s4:22 - Illegal ignition alarm
  IllegalDisplacementAlarm : Bool -- s4:23 - Illegal displacement alarm
  CollisionRolloverAlarm : Bool -- s4:24 - Collision rollover alarm
  OvertimeStop : Bool -- s4:25 - Overtime stop (platform)
  KeyPointNotReachedAlarm : Bool -- s4:26 - Key point not reached (platform)
  LineOverspeedAlarm : Bool -- s4:27 - Line overspeed alarm (platform)
  LineLowSpeedAlarm : Bool -- s4:28 - Line low speed alarm (platform)
  RoadOverspeedAlarm : Bool -- s4:29 - Road overspeed alarm (platform)
  OutOfAreaAlarmPlatform : Bool -- s4:30 - Out of area alarm (platform)
  KeyPointNotLeaveAlarm : Bool -- s4:31 - Key points not leave alarm (platform)

/-- ParseEquipmentStatus parses the s1, s2, s3, s4 integers into a structured
EquipmentStatus. -/
def ParseEquipmentStatus (s1 s2 s3 s4 : Int) : EquipmentStatus :=
  { -- Parse S1 flags
    GPSValid := Int.land s1 0x01 != 0
    ACCStatus := Int.land s1 0x02 != 0
    LeftTurn := Int.land s1 0x04 != 0
    RightTurn := Int.land s1 0x08 != 0
    FatigueWarning := Int.land s1 0x10 != 0
    ForwardRotation := Int.land s1 0x20 != 0
    ReverseState := Int.land s1 0x40 != 0
    GPSAntennaPresent := Int.land s1 0x80 != 0
    HardDriveStatus := Int.land (Int.shiftRight s1 8) 0x03
    ThreeGModuleStatus := Int.land (Int.shiftRight s1 10) 0x07
    QuiescentState := Int.land s1 0x2000 != 0
    OverspeedState := Int.land s1 0x4000 != 0
    GPSSupplement := Int.land s1 0x8000 != 0
    BatteryStatus := Int.land s1 0x10000 != 0
    NightState := Int.land s1 0x20000 != 0
    OvercrowdingStatus := Int.land s1 0x40000 != 0
    ParkingACCStatus := Int.land s1 0x80000 != 0
    IO1Status := Int.land s1 0x100000 != 0
    IO2Status := Int.land s1 0x200000 != 0
    IO3Status := Int.land s1 0x400000 != 0
    IO4Status := Int.land s1 0x800000 != 0
    IO5Status := Int.land s1 0x1000000 != 0
    IO6Status := Int.land s1 0x2000000 != 0
    IO7Status := Int.land s1 0x4000000 != 0
    IO8Status := Int.land s1 0x8000000 != 0
    Drive2Status := Int.land s1 0x10000000 != 0
    HardDisk2Status := Int.land (Int.shiftRight s1 29) 0x03
    HardDiskInvalid := Int.land s1 0x80000000 != 0
    -- Parse S2 flags
    OutOfAreaAlarm := Int.land s2 0x01 != 0
    LineAlarm := Int.land s2 0x02 != 0
    HighSpeedInAreaAlarm := Int.land s2 0x04 != 0
    LowSpeedInAreaAlarm := Int.land s2 0x08 != 0
    HighSpeedOutsideAreaAlarm := Int.land s2 0x10 != 0
    LowSpeedOutsideAreaAlarm := Int.land s2 0x20 != 0
    ParkingInAreaAlarm := Int.land s2 0x40 != 0
    OutOfAreaParkingAlarm := Int.land s2 0x80 != 0
    DailyFlowWarning := Int.land s2 0x100 != 0
    DailyFlowExceeded := Int.land s2 0x200 != 0
    MonthlyTrafficWarning := Int.land s2 0x400 != 0
    MonthlyFlowExceeded := Int.land s2 0x800 != 0
    BackupBatteryPowered := Int.land s2 0x1000 != 0
    DoorOpen := Int.land s2 0x2000 != 0
    VehicleFortification := Int.land s2 0x4000 != 0
    BatteryVoltageLow := Int.land s2 0x8000 != 0
    EngineStatus := Int.land s2 0x20000 != 0
    LastValidGPSInfo := Int.land s2 0x40000 != 0
    OnBoardStatus := Int.land s2 0x80000 != 0
    OperationStatus := Int.land s2 0x100000 != 0
    LatLngNotEncrypted := Int.land s2 0x200000 != 0
    NormalOilCircuit := Int.land s2 0x400000 != 0
    CircuitOK := Int.land s2 0x800000 != 0
    DoorUnlock := Int.land s2 0x1000000 != 0
    AreaOverspeedPlatform := Int.land s2 0x2000000 != 0
    AreaOverspeedPlatform2 := Int.land s2 0x4000000 != 0
    IntoAreaAlarm := Int.land s2 0x8000000 != 0
    LineOffset := Int.land s2 0x10000000 != 0
    TimePeriodOverspeed := Int.land s2 0x20000000 != 0
    TimePeriodLowSpeed := Int.land s2 0x40000000 != 0
    FatigueDriving := Int.land s2 0x80000000 != 0
    -- Parse S3 flags
    VideoLostChannels := uint8 (Int.land s3 0xFF)
    VideoChannels := uint8 (Int.land (Int.shiftRight s3 8) 0xFF)
    IOInputs916 := uint8 (Int.land (Int.shiftRight s3 16) 0xFF)
    IOOutput14 := uint8 (Int.land (Int.shiftRight s3 24) 0x0F)
    PositioningType := uint8 (Int.land (Int.shiftRight s3 28) 0x03)
    AbnormalDrivingState := Int.land s3 0x40000000 != 0
    MountainForbidden := Int.land s3 0x80000000 != 0
    -- Parse S4 flags
    PositioningCoordType := uint8 (Int.land s4 0x07)
    EmergencyAlarm := Int.land s4 0x08 != 0
    AreaOverspeedAlarm := Int.land s4 0x10 != 0
    FatigueDrivingReport := Int.land s4 0x20 != 0
    DangerousDrivingAlarm := Int.land s4 0x40 != 0
    GNSSModuleFault := Int.land s4 0x80 != 0
    GNSSAntennaDisconnected := Int.land s4 0x100 != 0
    GNSSAntennaShortCircuit := Int.land s4 0x200 != 0
    TerminalLCDFault := Int.land s4 0x400 != 0
    TTSModuleFault := Int.land s4 0x800 != 0
    CameraFailure := Int.land s4 0x1000 != 0
    CumulativeDrivingOvertime := Int.land s4 0x2000 != 0
    OvertimeParking := Int.land s4 0x4000 != 0
    IntoArea := Int.land s4 0x8000 != 0
    RouteAlarm := Int.land s4 0x10000 != 0
    TravelTimeAbnormal := Int.land s4 0x20000 != 0
    RouteDeviationAlarm := Int.land s4 0x40000 != 0
    VSSFailure := Int.land s4 0x80000 != 0
    FuelQuantityAbnormal := Int.land s4 0x100000 != 0
    VehicleTheftAlarm := Int.land s4 0x200000 != 0
    IllegalIgnitionAlarm := Int.land s4 0x400000 != 0
    IllegalDisplacementAlarm := Int.land s4 0x800000 != 0
    CollisionRolloverAlarm := Int.land s4 0x1000000 != 0
    OvertimeStop := Int.land s4 0x2000000 != 0
    KeyPointNotReachedAlarm := Int.land s4 0x4000000 != 0
    LineOverspeedAlarm := Int.land s4 0x8000000 != 0
    LineLowSpeedAlarm := Int.land s4 0x10000000 != 0
    RoadOverspeedAlarm := Int.land s4 0x20000000 != 0
    OutOfAreaAlarmPlatform := Int.land s4 0x40000000 != 0
    KeyPointNotLeaveAlarm := Int.land s4 0x80000000 != 0 }

/-! ## fmt.Sprintf -/

/-- An operand of `fmt.Sprintf`: the program formats strings and ints only. -/
inductive FmtArg where
  | str (s : String)
  | int (n : Int)

/-- Go's name of the operand's type, as printed in the bad-verb notes of `fmt`. -/
def FmtArg.typeName : FmtArg → List Char
  | .str _ => "string".data
  | .int _ => "int".data

/-- The default (`%v`) rendering of an operand: a string as it is, an int in decimal with a
leading minus sign when negative. -/
def FmtArg.value : FmtArg → List Char
  | .str s => s.data
  | .int n => (toString n).data

/-- One verb applied to one operand: `%s` on a string, `%d` on an int, `%v` on either; any
other pairing prints the note `%!verb(type=value)` as `fmt` does. -/
def FmtArg.render (verb : Char) (a : FmtArg) : List Char :=
  match a with
  | .str s =>
    if verb = 's' ∨ verb = 'v' then s.data
    else '%' :: '!' :: verb :: '(' :: ("string=".data ++ s.data ++ [')'])
  | .int n =>
    if verb = 'd' ∨ verb = 'v' then (toString n).data
    else '%' :: '!' :: verb :: '(' :: ("int=".data ++ (toString n).data ++ [')'])

/-- The operands left over when the format is exhausted, as listed inside `%!(EXTRA ...)`. -/
def Sprintf.extra : List FmtArg → List Char
  | [] => []
  | [a] => a.typeName ++ '=' :: a.value
  | a :: b :: rest => a.typeName ++ '=' :: a.value ++ ',' :: ' ' :: Sprintf.extra (b :: rest)

/-- The scan of the format: text is copied, `%%` is a percent sign, any other `%verb` consumes
the next operand. -/
def Sprintf.go : List Char → List FmtArg → List Char
  | [], [] => []
  | [], a :: args => "%!(EXTRA ".data ++ Sprintf.extra (a :: args) ++ [')']
  | c :: fmt, args =>
    if c = '%' then
      match fmt, args with
      | [], _ => "%!(NOVERB)".data
      | v :: fmt', [] =>
        if v = '%' then '%' :: Sprintf.go fmt' []
        else '%' :: '!' :: v :: "(MISSING)".data ++ Sprintf.go fmt' []
      | v :: fmt', a :: args' =>
        if v = '%' then '%' :: Sprintf.go fmt' (a :: args')
        else a.render v ++ Sprintf.go fmt' args'
    else c :: Sprintf.go fmt args

/-- The function `fmt.Sprintf` on plain verbs (no flags, width or precision).  The verbs `%s`,
`%d`, `%v` and `%%` are rendered as Go renders them; the program uses no other verb in the code
embedded here, and any other verb is printed as a bad-verb note. -/
def Sprintf (format : String) (args : List FmtArg) : String :=
  String.mk (Sprintf.go format.data args)

/-! ## Streaming links -/

/-- RTSPLinkOptions contains the parameters needed to build an RTSP URL. -/
structure RTSPLinkOptions where
  ServerHost : String
  ServerPort : Int
  JSession : String
  DevIDNO : String
  Channel : Int
  Stream : Int
  AVType : Int

/-- GenerateRTSPLink creates a properly formatted RTSP URL for video streaming. -/
def GenerateRTSPLink (config : AppConfig) (opts : RTSPLinkOptions) : String :=
  let opts := if opts.ServerPort == 0 then { opts with ServerPort := config.RTSPPort } else opts
  let opts := if opts.AVType == 0 then { opts with AVType := 1 } else opts
  Sprintf "rtsp://%s:%d/3/3?AVType=%d&jsession=%s&DevIDNO=%s&Channel=%d&Stream=%d"
    [.str opts.ServerHost, .int opts.ServerPort, .int opts.AVType, .str opts.JSession,
      .str opts.DevIDNO, .int opts.Channel, .int opts.Stream]

/-- HLSLinkOptions contains the parameters needed to build an HLS URL. -/
structure HLSLinkOptions where
  ServerHost : String
  ServerPort : Int
  JSession : String
  DevIDNO : String
  Channel : Int
  Stream : Int
  RequestType : Int

/-- GenerateHLSLink creates a properly formatted HLS URL for video streaming. -/
def GenerateHLSLink (config : AppConfig) (opts : HLSLinkOptions) : String :=
  let opts := if opts.ServerPort == 0 then { opts with ServerPort := config.HLSPort } else opts
  let opts := if opts.RequestType == 0 then { opts with RequestType := 1 } else opts
  Sprintf "https://%s:%d/hls/%d_%s_%d_%d.m3u8?jsession=%s"
    [.str opts.ServerHost, .int opts.ServerPort, .int opts.RequestType, .str opts.DevIDNO,
      .int opts.Channel, .int opts.Stream, .str opts.JSession]

/-- RTMPLinkOptions contains the parameters needed to build an RTMP URL. -/
structure RTMPLinkOptions where
  ServerHost : String
  ServerPort : Int
  JSession : String
  DevIDNO : String
  Channel : Int
  Stream : Int
  AVType : Int

/-- GenerateRTMPLink creates a properly formatted RTMP URL for video streaming. -/
def GenerateRTMPLink (config : AppConfig) (opts : RTMPLinkOptions) : String :=
  let opts := if opts.ServerPort == 0 then { opts with ServerPort := config.RTMPPort } else opts
  let opts := if opts.AVType == 0 then { opts with AVType := 1 } else opts
  Sprintf "rtmp://%s:%d/3/3?AVType=%d&jsession=%s&DevIDNO=%s&Channel=%d&Stream=%d"
    [.str opts.ServerHost, .int opts.ServerPort, .int opts.AVType, .str opts.JSession,
      .str opts.DevIDNO, .int opts.Channel, .int opts.Stream]

/-! ## Reference notions used in the statements -/

/-- Bit `k` of the two's-complement integer `w`: the parity of `w / 2^k` (floor division). -/
def bitOf (w : Int) (k : Nat) : Bool := decide (w / 2 ^ k % 2 = 1)

/-- Bits `k .. k+width-1` of the two's-complement integer `w`, read as an unsigned number. -/
def bitsOf (w : Int) (k width : Nat) : Int := w / 2 ^ k % 2 ^ width

/-- The RTSP/RTMP link as the specification writes it:
`scheme://host:port/3/3?AVType=..&jsession=..&DevIDNO=..&Channel=..&Stream=..`, the integers in
decimal. -/
def streamURL (scheme host : String) (port avType : Int) (jsession devIDNO : String)
    (channel stream : Int) : String :=
  scheme ++ "://" ++ host ++ ":" ++ toString port ++ "/3/3?AVType=" ++ toString avType
    ++ "&jsession=" ++ jsession ++ "&DevIDNO=" ++ devIDNO ++ "&Channel=" ++ toString channel
    ++ "&Stream=" ++ toString stream

/-- The HLS link as the specification writes it:
`https://host:port/hls/<requestType>_<DevIDNO>_<channel>_<stream>.m3u8?jsession=<tok>`. -/
def hlsURL (host : String) (port requestType : Int) (devIDNO : String) (channel stream : Int)
    (jsession : String) : String :=
  "https://" ++ host ++ ":" ++ toString port ++ "/hls/" ++ toString requestType ++ "_" ++ devIDNO
    ++ "_" ++ toString channel ++ "_" ++ toString stream ++ ".m3u8?jsession=" ++ jsession

/-! ## Strings helpers of the Go library -/

/-- The function `strings.Contains` on character lists: `substr` occurs somewhere in `s`. -/
def strings.containsChars : List Char → List Char → Bool
  | [], substr => substr.isEmpty
  | c :: cs, substr => substr.isPrefixOf (c :: cs) || strings.containsChars cs substr

/-- The function `strings.Contains(s, substr)`. -/
def strings.Contains (s substr : String) : Bool := strings.containsChars s.data substr.data

/-- The function `strings.HasPrefix(s, p)`: `s` begins with `p`. -/
def strings.HasPrefix (s p : String) : Bool := p.data.isPrefixOf s.data

/-- The function `strings.Repeat(s, count)` for a non-negative count. -/
def strings.Repeat (s : String) (count : Nat) : String := String.join (List.replicate count s)

/-- The login action URL. -/
def getLoginURL (config : AppConfig) : String :=
  Sprintf "%s/StandardApiAction_login.action" [.str config.ServerURL]

/-- The device online status action URL. -/
def getStatusURL (config : AppConfig) : String :=
  Sprintf "%s/StandardApiAction_getDeviceOlStatus.action" [.str config.ServerURL]

/-- The vehicle information action URL. -/
def getVehicleInfoURL (config : AppConfig) : String :=
  Sprintf "%s/StandardApiAction_queryUserVehicle.action" [.str config.ServerURL]

/-- The alarm action URL. -/
def getAlarmURL (config : AppConfig) : String :=
  Sprintf "%s/StandardApiAction_vehicleAlarm.action" [.str config.ServerURL]

/-- LoginResponse is the decoded answer of the login action. -/
structure LoginResponse where
  Result : Int
  JSession : String
deriving DecidableEq

/-- Device is the identifier pair of an online device. -/
structure Device where
  VID : String
  DID : String
deriving DecidableEq

/-- StatusResponse is the decoded answer of the device online status action. -/
structure StatusResponse where
  Result : Int
  Onlines : List Device
deriving DecidableEq

/-- The element type of `VehicleResponse.Companys` (an anonymous struct in the source). -/
structure Company where
  ID : Int
  Name : String
  PID : Int
deriving DecidableEq

/-- The element type of a vehicle's `DeviceList` (an anonymous struct in the source). -/
structure VehicleDevice where
  ID : String
  Channels : Int
  ChanName : String
  SIM : String
  InstallTime : String
deriving DecidableEq

/-- The element type of `VehicleResponse.Vehicles` (an anonymous struct in the source). -/
structure Vehicle where
  ID : Int
  Name : String
  PID : Int
  PName : String
  DeviceList : List VehicleDevice
  VehicleType : String
  VehicleColor : String
  VehicleBand : String
  OwnerName : String
  EngineNum : String
  FrameNum : String
deriving DecidableEq

/-- VehicleResponse is the decoded answer of the vehicle information action. -/
structure VehicleResponse where
  Result : Int
  Companys : List Company
  Vehicles : List Vehicle
deriving DecidableEq

/-- The `Gps` sub-record of an alarm. -/
structure AlarmGps where
  DCT : Int
  GD : Int
  GT : String
  HX : Int
  Lat : Int
  LC : Int
  LID : Int
  Lng : Int
  MLat : String
  MLng : String
  SP : Int
deriving DecidableEq

/-- AlarmResponseAlarm is the element type of `AlarmResponse.AlarmList`. -/
structure AlarmResponseAlarm where
  DevIDNO : String
  Desc : String
  GUID : String
  HD : Int
  Img : String
  Info : Int
  P1 : Int
  P2 : Int
  P3 : Int
  P4 : Int
  SrcTm : String
  StType : Int
  Time : String
  «Type» : Int
  Gps : AlarmGps
deriving DecidableEq

/-- The `Pagination` sub-record of an alarm answer. -/
structure AlarmPagination where
  TotalPages : Int
  CurrentPage : Int
  PageRecords : Int
  TotalRecords : Int
deriving DecidableEq

/-- AlarmResponse is the decoded answer of the alarm action. -/
structure AlarmResponse where
  Result : Int
  AlarmList : List AlarmResponseAlarm
  Pagination : AlarmPagination
deriving DecidableEq

/-! ## HTTP transport -/

/-- A non-nil Go `error`, identified by its message `err.Error()`.  A Go `error` that may be
nil is an `Option GoError`. -/
structure GoError where
  msg : String
deriving DecidableEq

/-- The function `fmt.Errorf` on plain verbs.  An error operand under `%v` is passed as its
message, which is what `%v` prints for it. -/
def Errorf (format : String) (args : List FmtArg) : GoError := ⟨Sprintf format args⟩

/-- An HTTP response as far as the program uses it: what `io.ReadAll(resp.Body)` returns. -/
structure Response where
  body : String
  readErr : Option GoError
deriving DecidableEq

/-- An observable action of the program: a line printed on the console, or one `client.Do`
round trip, made with certificate verification on (`insecure = false`) or off. -/
inductive Effect where
  | print (text : String)
  | httpDo (insecure : Bool) (url : String)
deriving DecidableEq

/-- What lies outside the embedded code: the outcome of `http.NewRequest("GET", url, nil)`
(`none` when it succeeds), the outcome of `client.Do` with or without certificate verification,
and `json.Unmarshal` into each of the four response types.  A byte slice received from the
network is modelled by the string it holds. -/
structure Env where
  newRequest : String → Option GoError
  roundTrip : Bool → String → Except GoError Response
  unmarshalLogin : String → Except GoError LoginResponse
  unmarshalStatus : String → Except GoError StatusResponse
  unmarshalVehicle : String → Except GoError VehicleResponse
  unmarshalAlarm : String → Except GoError AlarmResponse

/-- The two results `(value, err)` of a Go function together with the actions it performed, in
order. -/
structure Ret (α : Type) where
  val : α
  err : Option GoError
  log : List Effect

/-- The certificate-trust test of the transport. -/
def isCertError (err : Option GoError) : Bool :=
  match err with
  | none => false
  | some e =>
    strings.Contains e.msg "x509:"
      || strings.Contains e.msg "certificate signed by unknown authority"

/-- The GET primitive: one attempt with certificate verification, and on a certificate-trust
error one retry with `InsecureSkipVerify`. -/
def httpGetJSON (env : Env) (url : String) : Ret String :=
  match env.newRequest url with
  | some err => ⟨"", some (Errorf "failed to create request: %v" [.str err.msg]), []⟩
  | none =>
    -- resp, err := client.Do(req)
    match env.roundTrip false url with
    | .error err =>
      if isCertError (some err) then
        -- Retry with InsecureSkipVerify
        match env.newRequest url with
        | some err2 =>
          ⟨"", some (Errorf "failed to create retry request: %v" [.str err2.msg]),
            [.httpDo false url]⟩
        | none =>
          -- resp, err = insecureClient.Do(req2)
          match env.roundTrip true url with
          | .error err => ⟨"", some err, [.httpDo false url, .httpDo true url]⟩
          | .ok resp => ⟨resp.body, resp.readErr, [.httpDo false url, .httpDo true url]⟩
      else ⟨"", some err, [.httpDo false url]⟩
    | .ok resp => ⟨resp.body, resp.readErr, [.httpDo false url]⟩

/-! ## Session client -/

/-- The login call: the session token, or an error. -/
def login (config : AppConfig) (env : Env) (account password : String) : Ret String :=
  let url := Sprintf "%s?account=%s&password=%s"
    [.str (getLoginURL config), .str account, .str password]
  let r := httpGetJSON env url
  match r.err with
  | some err => ⟨"", some err, r.log⟩
  | none =>
    match env.unmarshalLogin r.val with
    | .error err => ⟨"", some err, r.log⟩
    | .ok res =>
      if res.Result != 0 then
        ⟨"", some (Errorf "login failed (result code %d)" [.int res.Result]), r.log⟩
      else ⟨res.JSession, none, r.log⟩

/-- The device list call. -/
def getDevices (config : AppConfig) (env : Env) (jsession : String) : Ret (List Device) :=
  let url := Sprintf "%s?jsession=%s" [.str (getStatusURL config), .str jsession]
  let r := httpGetJSON env url
  match r.err with
  | some err => ⟨[], some err, r.log⟩
  | none =>
    match env.unmarshalStatus r.val with
    | .error err => ⟨[], some err, r.log⟩
    | .ok res => ⟨res.Onlines, none, r.log⟩

/-- The vehicle information call; the result is a pointer, `none` being nil. -/
def getVehicleInfo (config : AppConfig) (env : Env) (jsession : String) :
    Ret (Option VehicleResponse) :=
  let url := Sprintf "%s?jsession=%s" [.str (getVehicleInfoURL config), .str jsession]
  let p1 := Effect.print (Sprintf "Requesting vehicle info from: %s\n" [.str url])
  let r := httpGetJSON env url
  match r.err with
  | some err =>
    ⟨none, some err,
      p1 :: r.log ++ [.print (Sprintf "HTTP request error: %v\n" [.str err.msg])]⟩
  | none =>
    let p2 := Effect.print (Sprintf "Raw response: %s\n" [.str r.val])
    match env.unmarshalVehicle r.val with
    | .error err =>
      ⟨none, some err,
        p1 :: r.log ++ [p2, .print (Sprintf "JSON parsing error: %v\n" [.str err.msg])]⟩
    | .ok res =>
      if res.Result != 0 then
        ⟨none, some (Errorf "vehicle info request failed (result code %d)" [.int res.Result]),
          p1 :: r.log
            ++ [p2, .print (Sprintf "API error response with code: %d\n" [.int res.Result])]⟩
      else ⟨some res, none, p1 :: r.log ++ [p2]⟩

/-- The alarm call; the result is a pointer, `none` being nil. -/
def getDeviceAlarms (config : AppConfig) (env : Env) (jsession devIDNO : String) (toMap : Int) :
    Ret (Option AlarmResponse) :=
  let url := Sprintf "%s?jsession=%s&DevIDNO=%s&toMap=%d"
    [.str (getAlarmURL config), .str jsession, .str devIDNO, .int toMap]
  let p1 := Effect.print (Sprintf "Requesting alarms from: %s\n" [.str url])
  let r := httpGetJSON env url
  match r.err with
  | some err =>
    ⟨none, some err,
      p1 :: r.log ++ [.print (Sprintf "HTTP request error: %v\n" [.str err.msg])]⟩
  | none =>
    let p2 := Effect.print (Sprintf "Raw alarm response: %s\n" [.str r.val])
    match env.unmarshalAlarm r.val with
    | .error err =>
      ⟨none, some err,
        p1 :: r.log ++ [p2, .print (Sprintf "JSON parsing error: %v\n" [.str err.msg])]⟩
    | .ok res =>
      if res.Result != 0 then
        ⟨none, some (Errorf "alarm request failed (result code %d)" [.int res.Result]),
          p1 :: r.log ++ [p2]⟩
      else ⟨some res, none, p1 :: r.log ++ [p2]⟩

/-- An example environment: request creation succeeds, the verified round trip has outcome
`first`, the unverified round trip has outcome `retry`, and the four decoders return the given
responses whatever the body. -/
def Env.scripted (first retry : Except GoError Response) (l : LoginResponse)
    (s : StatusResponse) (v : VehicleResponse) (a : AlarmResponse) : Env where
  newRequest := fun _ => none
  roundTrip := fun insecure _ => if insecure then retry else first
  unmarshalLogin := fun _ => .ok l
  unmarshalStatus := fun _ => .ok s
  unmarshalVehicle := fun _ => .ok v
  unmarshalAlarm := fun _ => .ok a

/-! ## Company hierarchy -/

/-- A Go map from parent id to the bucket of its children: `none` where the key is absent. -/
abbrev Hierarchy := Int → Option (List Company)

/-- The read `hierarchy[k]` of Go: the nil (empty) slice where the key is absent. -/
def Hierarchy.get (hierarchy : Hierarchy) (k : Int) : List Company := (hierarchy k).getD []

/-- The write `hierarchy[k] = v`. -/
def Hierarchy.set (hierarchy : Hierarchy) (k : Int) (v : List Company) : Hierarchy :=
  fun j => if j = k then some v else hierarchy j

/-- The grouping of the companies by parent id: each company, in input order, is appended to
the bucket of its `PID`. -/
def buildCompanyHierarchy (companies : List Company) : Hierarchy :=
  companies.foldl
    (fun hierarchy company =>
      hierarchy.set company.PID (hierarchy.get company.PID ++ [company]))
    (fun _ => none)

/-- The tree printer.  The first argument bounds the depth of the recursion, which the source
does not: the result is `none` when that depth would be exceeded, and otherwise the content of
the builder after the call. -/
def printCompanyTree : Nat → String → Hierarchy → Int → String → Option String
  | 0, _, _, _, _ => none
  | fuel + 1, builder, hierarchy, parentID, pre =>
    match hierarchy parentID with
    | none => some builder
    | some children =>
      children.enum.foldlM
        (fun builder (ic : Nat × Company) =>
          let isLast := (ic.1 : Int) == (children.length : Int) - 1
          if isLast then
            printCompanyTree fuel
              (builder ++ Sprintf "%s└── %s\n" [.str pre, .str ic.2.Name])
              hierarchy ic.2.ID (pre ++ "    ")
          else
            printCompanyTree fuel
              (builder ++ Sprintf "%s├── %s\n" [.str pre, .str ic.2.Name])
              hierarchy ic.2.ID (pre ++ "│   "))
        builder

/-- The rendering of `(parentID, pre)` is `out`: some depth of recursion lets the printer
return, and it has then appended `out` to the empty builder. -/
def RendersTo (hierarchy : Hierarchy) (parentID : Int) (pre out : String) : Prop :=
  ∃ fuel, printCompanyTree fuel "" hierarchy parentID pre = some out

/-- The call relation of the printer on the parent ids of a company list: the call for `p`
calls the one for `q` when some company has parent id `p` and id `q`. -/
def ChildCall (companies : List Company) (p q : Int) : Prop :=
  ∃ c ∈ companies, c.PID = p ∧ c.ID = q

/-- The connector of the child at index `i` among `n` children: a corner for the last child, a
tee for the others. -/
def connector (i n : Nat) : String := if i + 1 = n then "└── " else "├── "

/-- The text added to the prefix below the child at index `i` among `n` children. -/
def childIndent (i n : Nat) : String := if i + 1 = n then "    " else "│   "

/-- The concatenation of a list of texts, in order. -/
def concatStrings : List String → String
  | [] => ""
  | s :: rest => s ++ concatStrings rest

/-- One turn of the loop of the printer over the bucket of `n` children, the recursive call
being `call`: the line of the child is written, then the child is rendered below it. -/
def printChild (call : String → Int → String → Option String) (pre : String) (n : Nat)
    (builder : String) (ic : Nat × Company) : Option String :=
  call (builder ++ (pre ++ connector ic.1 n ++ ic.2.Name ++ "\n")) ic.2.ID
    (pre ++ childIndent ic.1 n)

/-! ## Alarm auto-refresh

The refresh button handler and the goroutine it starts, as a step relation.  A step is one
run of a handler or one turn of the goroutine's `select` loop; the steps are taken one at a
time.  The values the goroutine reads at a tick (the selections, the session, the network and
the clock) come with the tick. -/

/-- What a turn of the loop reads when a tick arrives. -/
structure TickInput where
  selected : String -- deviceSelector.Selected
  deviceMap : String → Option Device -- deviceMap[...] with its ok flag
  coordSystem : String -- coordSystemSelector.Selected
  jsessionCache : String
  env : Env
  now : String -- time.Now().Format("15:04:05")

/-- The device id of a tick: empty for "All Devices", the DID of the selected device, or
`none` when the selection is not in the device map (the loop then skips the tick). -/
def tickDeviceID (t : TickInput) : Option String :=
  if t.selected == "All Devices" then some ""
  else
    match t.deviceMap t.selected with
    | some device => some device.DID
    | none => none

/-- The coordinate system of a tick: 0 (WGS84) unless the selection begins with "1 -" or
"2 -". -/
def tickToMap (t : TickInput) : Int :=
  if strings.HasPrefix t.coordSystem "1 -" then 1
  else if strings.HasPrefix t.coordSystem "2 -" then 2
  else 0

/-- The lines written for one alarm by the loop. -/
def alarmLines (alarm : AlarmResponseAlarm) : String :=
  Sprintf "Device: %s\n" [.str alarm.DevIDNO]
    ++ Sprintf "Time: %s\n" [.str alarm.Time]
    ++ Sprintf "Type: %d\n" [.int alarm.«Type»]
    ++ Sprintf "Description: %s\n" [.str alarm.Desc]
    ++ (strings.Repeat "-" 60 ++ "\n")

/-- The text the loop builds from a fetched alarm list. -/
def refreshText (now : String) (alarmData : AlarmResponse) : String :=
  let builder := Sprintf "=== AUTO REFRESH ALARMS (%s) ===\n" [.str now]
  if alarmData.AlarmList.length == 0 then
    builder ++ "No alarms found for this device\n"
  else
    alarmData.AlarmList.foldl (fun b alarm => b ++ alarmLines alarm)
      (builder ++ Sprintf "Found %d alarms\n\n" [.int alarmData.AlarmList.length])

/-- The `case <-refreshTicker.C` branch of the loop up to the update of the output: the text
to hand to `output.SetText`, or `none` when the turn ends in `continue`; with the console
lines printed on the way. -/
def refreshTick (config : AppConfig) (t : TickInput) : Option String × List Effect :=
  match tickDeviceID t with
  | none => (none, [])
  | some deviceID =>
    -- Fetch alarms
    let r := getDeviceAlarms config t.env t.jsessionCache deviceID (tickToMap t)
    match r.err with
    | some _ => (none, r.log) -- Skip this iteration on error
    | none =>
      match r.val with
      | none => (none, r.log) -- not reached: a nil result comes with an error
      | some alarmData => (some (refreshText t.now alarmData), r.log)

/-- The state of the auto-refresh: the variables the handler and the loop share, and what the
user can observe. -/
structure PollerState where
  refreshTicker : Bool -- refreshTicker != nil
  loopAlive : Bool -- the goroutine has been started and has not returned
  tickerArmed : Bool -- a ticker has been created and not stopped
  confirmOpen : Bool -- the confirm dialog is open
  btnText : String -- the text of the refresh button
  output : String -- the text of the output widget
  setTextCalls : Nat -- how many times the loop has called output.SetText
  notices : List String -- the information dialogs shown
  console : List Effect -- the console lines and requests of the loop
deriving DecidableEq

/-- The events of the auto-refresh: the refresh button is tapped, the confirm dialog is
answered, a tick arrives. -/
inductive PollerEvent where
  | tap
  | confirm (start : Bool)
  | tick (t : TickInput)

/-- The step relation: the states a step may lead to, none when the event cannot be taken.
A tap while the confirm dialog is open cannot be taken (the dialog is modal).  A tap with the
ticker set sends on `stopRefresh`; the loop receives it and returns, and it stops the ticker
only if it reads `refreshTicker` before the handler sets it to nil, so both outcomes are
listed.  A tick is handled by the loop if it is alive; otherwise it is lost. -/
def PollerState.step (config : AppConfig) (s : PollerState) : PollerEvent → List PollerState
  | .tap =>
    if s.confirmOpen then []
    else if s.refreshTicker then
      -- Stop auto-refresh
      if s.loopAlive then
        [ { s with
            refreshTicker := false, loopAlive := false, tickerArmed := false,
            btnText := "AUTO REFRESH ALARMS",
            notices := s.notices ++ ["Auto-refresh stopped"] },
          { s with
            refreshTicker := false, loopAlive := false,
            btnText := "AUTO REFRESH ALARMS",
            notices := s.notices ++ ["Auto-refresh stopped"] } ]
      else []
    else
      -- Start auto-refresh
      [ { s with confirmOpen := true } ]
  | .confirm start =>
    if !s.confirmOpen then []
    else if !start then [ { s with confirmOpen := false } ]
    else
      [ { s with
          confirmOpen := false, refreshTicker := true, tickerArmed := true, loopAlive := true,
          btnText := "STOP AUTO REFRESH" } ]
  | .tick t =>
    if !s.tickerArmed then []
    else if !s.loopAlive then [s]
    else
      match refreshTick config t with
      | (none, log) => [ { s with console := s.console ++ log } ]
      | (some text, log) =>
        [ { s with
            output := text, setTextCalls := s.setTextCalls + 1,
            console := s.console ++ log } ]

/-- The states a sequence of events may lead to. -/
def PollerState.run (config : AppConfig) (s : PollerState) : List PollerEvent → List PollerState
  | [] => [s]
  | e :: rest => (s.step config e).flatMap (fun s' => s'.run config rest)

/-- Running: the ticker variable is set and the loop is alive. -/
def PollerState.Running (s : PollerState) : Prop := s.refreshTicker = true ∧ s.loopAlive = true

/-- Idle: the ticker variable is nil, no loop is alive and no ticker is armed. -/
def PollerState.Idle (s : PollerState) : Prop :=
  s.refreshTicker = false ∧ s.loopAlive = false ∧ s.tickerArmed = false

/-- The state of the program at start-up. -/
def PollerState.init : PollerState where
  refreshTicker := false
  loopAlive := false
  tickerArmed := false
  confirmOpen := false
  btnText := "AUTO REFRESH ALARMS"
  output := ""
  setTextCalls := 0
  notices := []
  console := []

/-- An example tick: "All Devices" selected, WGS84, session "tok", at 12:00:00. -/
def TickInput.sample (env : Env) : TickInput where
  selected := "All Devices"
  deviceMap := fun _ => none
  coordSystem := "0 - WGS84 (Default)"
  jsessionCache := "tok"
  env := env
  now := "12:00:00"


/-! ## Status summary -/

/-- The function `strings.Join(elems, sep)`. -/
def strings.Join : List String → String → String
  | [], _ => ""
  | [a], _ => a
  | a :: b :: rest, sep => a ++ sep ++ strings.Join (b :: rest) sep

/-- The human-readable summary of a status: the labels of the relevant flags that are set,
then the important alarms under "ALARMS: ", joined by ", ". -/
def getStatusDescription (status : EquipmentStatus) : String :=
  let descriptions : List String := []
  -- Build status descriptions for relevant flags
  let descriptions := if status.GPSValid then descriptions ++ ["GPS Valid"] else descriptions
  let descriptions := if status.ACCStatus then descriptions ++ ["ACC On"] else descriptions
  let descriptions := if status.LeftTurn then descriptions ++ ["Left Turn"] else descriptions
  let descriptions := if status.RightTurn then descriptions ++ ["Right Turn"] else descriptions
  let descriptions :=
    if status.QuiescentState then descriptions ++ ["Quiescent"] else descriptions
  let descriptions :=
    if status.OverspeedState then descriptions ++ ["Overspeeding"] else descriptions
  let descriptions :=
    if status.BatteryStatus then descriptions ++ ["Battery Low"] else descriptions
  let descriptions := if status.NightState then descriptions ++ ["Night Mode"] else descriptions
  let descriptions := if status.DoorOpen then descriptions ++ ["Door Open"] else descriptions
  -- Add important alarms
  let alarms : List String := []
  let alarms := if status.EmergencyAlarm then alarms ++ ["Emergency"] else alarms
  let alarms := if status.AreaOverspeedAlarm then alarms ++ ["Area Overspeed"] else alarms
  let alarms := if status.FatigueDrivingReport then alarms ++ ["Fatigue Driving"] else alarms
  let alarms :=
    if status.DangerousDrivingAlarm then alarms ++ ["Dangerous Driving"] else alarms
  let alarms := if status.VehicleTheftAlarm then alarms ++ ["Vehicle Theft"] else alarms
  let alarms := if status.IllegalIgnitionAlarm then alarms ++ ["Illegal Ignition"] else alarms
  let alarms :=
    if status.CollisionRolloverAlarm then alarms ++ ["Collision/Rollover"] else alarms
  let descriptions :=
    if alarms.length > 0 then
      descriptions ++ [Sprintf "ALARMS: %s" [.str (strings.Join alarms ", ")]]
    else descriptions
  strings.Join descriptions ", "

/-- The labels of the set flags of a table of (flag, label) pairs, in the order of the
table. -/
def setLabels (table : List (Bool × String)) : List String :=
  (table.filter (fun p => p.1)).map (fun p => p.2)

/-- The relevant flags of the summary with their labels, in order. -/
def statusTable (status : EquipmentStatus) : List (Bool × String) :=
  [(status.GPSValid, "GPS Valid"), (status.ACCStatus, "ACC On"), (status.LeftTurn, "Left Turn"),
    (status.RightTurn, "Right Turn"), (status.QuiescentState, "Quiescent"),
    (status.OverspeedState, "Overspeeding"), (status.BatteryStatus, "Battery Low"),
    (status.NightState, "Night Mode"), (status.DoorOpen, "Door Open")]

/-- The alarms of the summary with their labels, in order. -/
def alarmTable (status : EquipmentStatus) : List (Bool × String) :=
  [(status.EmergencyAlarm, "Emergency"), (status.AreaOverspeedAlarm, "Area Overspeed"),
    (status.FatigueDrivingReport, "Fatigue Driving"),
    (status.DangerousDrivingAlarm, "Dangerous Driving"),
    (status.VehicleTheftAlarm, "Vehicle Theft"),
    (status.IllegalIgnitionAlarm, "Illegal Ignition"),
    (status.CollisionRolloverAlarm, "Collision/Rollover")]

/-- Some company reachable from the root through the child relation is its own descendant:
its bucket (that of its parent id) is reached from the root, and from its own id. -/
def ReachableCycle (companies : List Company) (root : Int) : Prop :=
  ∃ c ∈ companies,
    Relation.ReflTransGen (ChildCall companies) root c.PID ∧
    Relation.ReflTransGen (ChildCall companies) c.ID c.PID

/-! ## Link generation buttons -/

/-- The channel number parsed from a selection: `strconv.Atoi` of the last byte as a string,
its error dropped, and 0 for the empty selection.  Atoi of a one-byte string is the digit's
value for "0" to "9" and 0 (with an error) otherwise; the last byte is an ASCII digit exactly
when the last character is that digit. -/
def channelNumber (channelStr : String) : Int :=
  match channelStr.data.getLast? with
  | none => 0
  | some c => if '0' ≤ c ∧ c ≤ '9' then ((c.toNat - '0'.toNat : Nat) : Int) else 0

/-- The stream type parsed from a selection: 0 (main stream) when it contains "(0)", else 1
(sub stream). -/
def streamNumber (streamStr : String) : Int :=
  if strings.Contains streamStr "(0)" then 0 else 1

/-- The RTSP button: the link shown, or `none` when the handler returns before generating one
(no session, no specific device selected, selection not in the device map, dialog cancelled).
`serverText` is the text of the server entry when the dialog is confirmed. -/
def rtspBtnLink (config : AppConfig) (jsessionCache selectedDevice : String)
    (deviceMap : String → Option Device) (serverText channelSelected streamSelected : String)
    (generate : Bool) : Option String :=
  if jsessionCache == "" then none
  else if selectedDevice == "" || selectedDevice == "All Devices" then none
  else
    match deviceMap selectedDevice with
    | none => none
    | some device =>
      if !generate then none
      else
        let channelNum := channelNumber channelSelected
        let streamType := streamNumber streamSelected
        -- Generate the RTSP link
        let rtspOptions : RTSPLinkOptions :=
          { ServerHost := serverText,
            ServerPort := 6604, -- Default port
            JSession := jsessionCache,
            DevIDNO := device.DID,
            Channel := channelNum,
            Stream := streamType,
            AVType := 1 } -- Live video
        some (GenerateRTSPLink config rtspOptions)

/-- The RTMP button: the link shown, or `none` when the handler returns before generating
one. -/
def rtmpBtnLink (config : AppConfig) (jsessionCache selectedDevice : String)
    (deviceMap : String → Option Device) (serverText channelSelected streamSelected : String)
    (generate : Bool) : Option String :=
  if jsessionCache == "" then none
  else if selectedDevice == "" || selectedDevice == "All Devices" then none
  else
    match deviceMap selectedDevice with
    | none => none
    | some device =>
      if !generate then none
      else
        let channelNum := channelNumber channelSelected
        let streamType := streamNumber streamSelected
        -- Generate the RTMP link
        let rtmpOptions : RTMPLinkOptions :=
          { ServerHost := serverText,
            ServerPort := 6604, -- Default port for RTMP
            JSession := jsessionCache,
            DevIDNO := device.DID,
            Channel := channelNum,
            Stream := streamType,
            AVType := 1 } -- Live video
        some (GenerateRTMPLink config rtmpOptions)

/-- The HLS button: the link shown, or `none` when the handler returns before generating
one. -/
def hlsBtnLink (config : AppConfig) (jsessionCache selectedDevice : String)
    (deviceMap : String → Option Device) (serverText channelSelected streamSelected : String)
    (generate : Bool) : Option String :=
  if jsessionCache == "" then none
  else if selectedDevice == "" || selectedDevice == "All Devices" then none
  else
    match deviceMap selectedDevice with
    | none => none
    | some device =>
      if !generate then none
      else
        let channelNum := channelNumber channelSelected
        let streamType := streamNumber streamSelected
        -- Generate the HLS link
        let hlsOptions : HLSLinkOptions :=
          { ServerHost := serverText,
            ServerPort := 16604, -- Default port for HLS
            JSession := jsessionCache,
            DevIDNO := device.DID,
            Channel := channelNum,
            Stream := streamType,
            RequestType := 1 } -- Real-time video
        some (GenerateHLSLink config hlsOptions)

/-! ## Server host name -/

/-- The function `strings.TrimPrefix(s, p)` on character lists. -/
def strings.trimPrefixChars (s p : List Char) : List Char :=
  if p.isPrefixOf s then s.drop p.length else s

/-- The function `strings.TrimPrefix(s, p)`. -/
def strings.TrimPrefix (s p : String) : String :=
  String.mk (strings.trimPrefixChars s.data p.data)

/-- The function `strings.Split` on character lists, for a non-empty separator `sep`; the
first argument counts the characters of a matched separator still to be dropped. -/
def strings.splitChars (sep : List Char) : Nat → List Char → List (List Char)
  | _, [] => [[]]
  | skip + 1, _ :: cs => strings.splitChars sep skip cs
  | 0, c :: cs =>
    if sep.isPrefixOf (c :: cs) then [] :: strings.splitChars sep (sep.length - 1) cs
    else
      match strings.splitChars sep 0 cs with
      | [] => [[c]]
      | part :: parts => (c :: part) :: parts

/-- The function `strings.Split(s, sep)` for a non-empty separator. -/
def strings.Split (s sep : String) : List String :=
  (strings.splitChars sep.data 0 s.data).map String.mk

/-- The element `parts[0]` of a slice returned by `strings.Split`, which is never empty. -/
def firstPart (parts : List String) : String := parts.headD ""

/-- The host name of the configured server URL, for the streaming links. -/
def getServerHostname (config : AppConfig) : String :=
  -- Remove protocol prefix (https:// or http://)
  let hostname := strings.TrimPrefix config.ServerURL "https://"
  let hostname := strings.TrimPrefix hostname "http://"
  -- Remove any path or port if present
  let parts := strings.Split hostname "/"
  let hostname := firstPart parts
  -- Remove port if present (for cases like hostname:port)
  let parts := strings.Split hostname ":"
  let hostname := firstPart parts
  hostname


/-! ## Bit-level lemmas -/

theorem int_testBit_eq_bitOf (s : Int) (k : Nat) : Int.testBit s k = bitOf s k := by
  unfold bitOf
  cases s with
  | ofNat n =>
    show Nat.testBit n k = _
    rw [Nat.testBit_to_div_mod]
    have h : ((Int.ofNat n) / 2 ^ k % 2 = 1) ↔ (n / 2 ^ k % 2 = 1) := by
      have : (Int.ofNat n) / 2 ^ k % 2 = ((n / 2 ^ k % 2 : Nat) : Int) := by
        simp
      rw [this]
      omega
    simp only [h]
  | negSucc n =>
    show (!Nat.testBit n k) = _
    rw [Nat.testBit_to_div_mod]
    have hpos : (0 : Int) < 2 ^ k := by positivity
    rw [Int.negSucc_ediv n hpos]
    have : Int.ediv (n : Int) (2 ^ k) = ((n / 2 ^ k : Nat) : Int) := by
      show (n : Int) / 2 ^ k = _
      simp
    rw [this]
    generalize n / 2 ^ k = q
    by_cases hq : q % 2 = 1
    · have hz : ¬ ((-((q : Int) + 1)) % 2 = 1) := by omega
      rw [decide_eq_true hq, decide_eq_false hz]; rfl
    · have hz : ((-((q : Int) + 1)) % 2 = 1) := by omega
      rw [decide_eq_false hq, decide_eq_true hz]; rfl

theorem int_eq_of_testBit_eq (a b : Int) (h : ∀ k, Int.testBit a k = Int.testBit b k) : a = b := by
  cases a with
  | ofNat m =>
    cases b with
    | ofNat n =>
      have : m = n := Nat.eq_of_testBit_eq (fun k => h k)
      rw [this]
    | negSucc n =>
      exfalso
      have h1 := h (m + n)
      have hm : Nat.testBit m (m + n) = false :=
        Nat.testBit_lt_two_pow (lt_of_lt_of_le (Nat.lt_two_pow m) (Nat.pow_le_pow_right (by decide) (by omega)))
      have hn : Nat.testBit n (m + n) = false :=
        Nat.testBit_lt_two_pow (lt_of_lt_of_le (Nat.lt_two_pow n) (Nat.pow_le_pow_right (by decide) (by omega)))
      simp [Int.testBit, hm, hn] at h1
  | negSucc m =>
    cases b with
    | ofNat n =>
      exfalso
      have h1 := h (m + n)
      have hm : Nat.testBit m (m + n) = false :=
        Nat.testBit_lt_two_pow (lt_of_lt_of_le (Nat.lt_two_pow m) (Nat.pow_le_pow_right (by decide) (by omega)))
      have hn : Nat.testBit n (m + n) = false :=
        Nat.testBit_lt_two_pow (lt_of_lt_of_le (Nat.lt_two_pow n) (Nat.pow_le_pow_right (by decide) (by omega)))
      simp [Int.testBit, hm, hn] at h1
    | negSucc n =>
      have : m = n := Nat.eq_of_testBit_eq (fun k => by
        have := h k
        simpa [Int.testBit] using this)
      rw [this]

theorem int_testBit_ofNat_pow (k j : Nat) : Int.testBit ((2 : Int) ^ k) j = decide (k = j) := by
  have : ((2 : Int) ^ k) = Int.ofNat (2 ^ k) := by simp
  rw [this]
  show Nat.testBit (2 ^ k) j = _
  exact Nat.testBit_two_pow

theorem int_testBit_mask (w j : Nat) : Int.testBit ((2 : Int) ^ w - 1) j = decide (j < w) := by
  have : ((2 : Int) ^ w - 1) = Int.ofNat (2 ^ w - 1) := by
    have h1 : 1 ≤ 2 ^ w := Nat.one_le_two_pow
    simp [Nat.cast_sub h1]
  rw [this]
  show Nat.testBit (2 ^ w - 1) j = _
  exact Nat.testBit_two_pow_sub_one w j

theorem int_testBit_nonneg_lt (m : Int) (n j : Nat) (h0 : 0 ≤ m) (h1 : m < 2 ^ n) (hj : n ≤ j) :
    Int.testBit m j = false := by
  cases m with
  | ofNat a =>
    show Nat.testBit a j = false
    apply Nat.testBit_lt_two_pow
    have ha : a < 2 ^ n := by
      have h2 : (a : Int) < ((2 ^ n : Nat) : Int) := by push_cast; exact h1
      exact_mod_cast h2
    exact lt_of_lt_of_le ha (Nat.pow_le_pow_right (by decide) hj)
  | negSucc a => exact absurd h0 (by simp)

theorem bitOf_shift (s : Int) (k j : Nat) : bitOf (s / 2 ^ k) j = bitOf s (k + j) := by
  unfold bitOf
  have h := Int.shiftRight_add s k j
  rw [Int.shiftRight_eq_div_pow, Int.shiftRight_eq_div_pow, Int.shiftRight_eq_div_pow] at h
  push_cast at h
  rw [h]

theorem int_testBit_shiftRight (s : Int) (k j : Nat) :
    Int.testBit (Int.shiftRight s k) j = Int.testBit s (k + j) := by
  rw [int_testBit_eq_bitOf, int_testBit_eq_bitOf, ← bitOf_shift]
  congr 1
  have := Int.shiftRight_eq_div_pow s k
  rw [← Int.shiftRight_eq, this]
  simp

theorem bitOf_emod (s : Int) (n j : Nat) : bitOf (s % 2 ^ n) j = (decide (j < n) && bitOf s j) := by
  unfold bitOf
  by_cases hj : j < n
  · obtain ⟨d, rfl⟩ : ∃ d, n = j + (d + 1) := ⟨n - j - 1, by omega⟩
    have hpos : (0 : Int) < 2 ^ j := by positivity
    have e1 : s % 2 ^ (j + (d + 1)) = s - 2 ^ j * (2 * 2 ^ d * (s / 2 ^ (j + (d + 1)))) := by
      have := Int.emod_def s (2 ^ (j + (d + 1)))
      rw [this]; ring
    have e2 : (s - 2 ^ j * (2 * 2 ^ d * (s / 2 ^ (j + (d + 1))))) / 2 ^ j
        = s / 2 ^ j - 2 * 2 ^ d * (s / 2 ^ (j + (d + 1))) := by
      rw [sub_eq_add_neg, ← mul_neg, Int.add_mul_ediv_left _ _ (ne_of_gt hpos)]
      ring
    rw [e1, e2]
    have e3 : (s / 2 ^ j - 2 * 2 ^ d * (s / 2 ^ (j + (d + 1)))) % 2 = s / 2 ^ j % 2 := by
      rw [mul_assoc]
      generalize s / 2 ^ j = a
      generalize 2 ^ d * (s / 2 ^ (j + (d + 1))) = c
      omega
    rw [e3]
    simp [hj]
  · have hle : n ≤ j := by omega
    obtain ⟨d, rfl⟩ : ∃ d, j = n + d := ⟨j - n, by omega⟩
    have hpos : (0 : Int) < 2 ^ n := by positivity
    have h0 : 0 ≤ s % 2 ^ n := Int.emod_nonneg _ (ne_of_gt hpos)
    have h1 : s % 2 ^ n < 2 ^ n := Int.emod_lt_of_pos _ hpos
    have : s % 2 ^ n / 2 ^ (n + d) = 0 := by
      apply Int.ediv_eq_zero_of_lt h0
      calc s % 2 ^ n < 2 ^ n := h1
        _ ≤ 2 ^ (n + d) := by
          apply pow_le_pow_right₀ (by norm_num) (by omega)
    rw [this]
    simp [hj]

theorem int_testBit_emod (s : Int) (n j : Nat) :
    Int.testBit (s % 2 ^ n) j = (decide (j < n) && Int.testBit s j) := by
  rw [int_testBit_eq_bitOf, int_testBit_eq_bitOf, bitOf_emod]

theorem int_testBit_zero (j : Nat) : Int.testBit 0 j = false := by
  show Nat.testBit 0 j = false
  exact Nat.zero_testBit j

theorem land_pow_eq_zero_iff (s : Int) (k : Nat) :
    Int.land s (2 ^ k) = 0 ↔ Int.testBit s k = false := by
  constructor
  · intro h
    have h1 := Int.testBit_land s (2 ^ k) k
    rw [h, int_testBit_zero, int_testBit_ofNat_pow] at h1
    simpa using h1.symm
  · intro h
    apply int_eq_of_testBit_eq
    intro j
    rw [Int.testBit_land, int_testBit_zero, int_testBit_ofNat_pow]
    by_cases hj : k = j
    · subst hj; simp [h]
    · simp [hj]

theorem land_pow_flag (s : Int) (k : Nat) : (Int.land s (2 ^ k) != 0) = bitOf s k := by
  rw [← int_testBit_eq_bitOf]
  cases hb : Int.testBit s k with
  | false =>
    have := (land_pow_eq_zero_iff s k).2 hb
    simp [this]
  | true =>
    have hne : Int.land s (2 ^ k) ≠ 0 := by
      intro h0
      have := (land_pow_eq_zero_iff s k).1 h0
      rw [hb] at this
      exact Bool.noConfusion this
    simpa using hne

theorem shift_land_mask (s : Int) (k w : Nat) :
    Int.land (Int.shiftRight s k) (2 ^ w - 1) = bitsOf s k w := by
  unfold bitsOf
  apply int_eq_of_testBit_eq
  intro j
  rw [Int.testBit_land, int_testBit_shiftRight, int_testBit_mask, int_testBit_emod,
    int_testBit_eq_bitOf, int_testBit_eq_bitOf, bitOf_shift, Bool.and_comm]

theorem land_emod (s m : Int) (n : Nat) (h0 : 0 ≤ m) (h1 : m < 2 ^ n) :
    Int.land (s % 2 ^ n) m = Int.land s m := by
  apply int_eq_of_testBit_eq
  intro j
  rw [Int.testBit_land, Int.testBit_land, int_testBit_emod]
  by_cases hj : j < n
  · simp [hj]
  · rw [int_testBit_nonneg_lt m n j h0 h1 (by omega)]
    simp

theorem shift_land_emod (s m : Int) (k n : Nat) (h0 : 0 ≤ m) (h1 : m * 2 ^ k < 2 ^ n) :
    Int.land (Int.shiftRight (s % 2 ^ n) k) m = Int.land (Int.shiftRight s k) m := by
  apply int_eq_of_testBit_eq
  intro j
  rw [Int.testBit_land, Int.testBit_land, int_testBit_shiftRight, int_testBit_shiftRight,
    int_testBit_emod]
  by_cases hj : k + j < n
  · simp [hj]
  · have hm : m < 2 ^ j := by
      have hle : (2 : Int) ^ n ≤ 2 ^ j * 2 ^ k := by
        rw [← pow_add]
        exact pow_le_pow_right₀ (by norm_num) (by omega)
      exact lt_of_mul_lt_mul_right (lt_of_lt_of_le h1 hle) (by positivity)
    rw [int_testBit_nonneg_lt m j j h0 hm (le_refl j)]
    simp

theorem flag_lit (s m : Int) (k : Nat) (hm : m = 2 ^ k) : (Int.land s m != 0) = bitOf s k := by
  rw [hm]; exact land_pow_flag s k

theorem field_lit (s m : Int) (k w : Nat) (hm : m = 2 ^ w - 1) :
    Int.land (Int.shiftRight s k) m = bitsOf s k w := by
  rw [hm]; exact shift_land_mask s k w

theorem land_mask (s : Int) (w : Nat) : Int.land s (2 ^ w - 1) = bitsOf s 0 w := by
  have h := shift_land_mask s 0 w
  have e : Int.shiftRight s 0 = s := by
    cases s <;> rfl
  rw [e] at h
  exact h


theorem bitsOf_nonneg (s : Int) (k w : Nat) : 0 ≤ bitsOf s k w := by
  unfold bitsOf
  exact Int.emod_nonneg _ (ne_of_gt (by positivity))

theorem bitsOf_lt (s : Int) (k w : Nat) : bitsOf s k w < 2 ^ w := by
  unfold bitsOf
  exact Int.emod_lt_of_pos _ (by positivity)

theorem uint8_of_small (x : Int) (h0 : 0 ≤ x) (h1 : x < 256) : ((uint8 x : Nat) : Int) = x := by
  unfold uint8
  rw [Int.emod_eq_of_lt h0 h1, Int.toNat_of_nonneg h0]

theorem uint8_field (s m : Int) (k w : Nat) (hm : m = 2 ^ w - 1) (hw : w ≤ 8) :
    ((uint8 (Int.land (Int.shiftRight s k) m) : Nat) : Int) = bitsOf s k w := by
  rw [field_lit s m k w hm]
  apply uint8_of_small _ (bitsOf_nonneg s k w)
  calc bitsOf s k w < 2 ^ w := bitsOf_lt s k w
    _ ≤ 2 ^ 8 := pow_le_pow_right₀ (by norm_num) hw
    _ = 256 := by norm_num

theorem uint8_mask (s m : Int) (w : Nat) (hm : m = 2 ^ w - 1) (hw : w ≤ 8) :
    ((uint8 (Int.land s m) : Nat) : Int) = bitsOf s 0 w := by
  rw [hm, land_mask]
  apply uint8_of_small _ (bitsOf_nonneg s 0 w)
  calc bitsOf s 0 w < 2 ^ w := bitsOf_lt s 0 w
    _ ≤ 2 ^ 8 := pow_le_pow_right₀ (by norm_num) hw
    _ = 256 := by norm_num

theorem flag_congr (a b m : Int) (k : Nat) (hm : m = 2 ^ k) (h : bitOf a k = bitOf b k) :
    (Int.land a m != 0) = (Int.land b m != 0) := by
  rw [flag_lit a m k hm, flag_lit b m k hm, h]

theorem bitOf_31_of_int32 (w : Int) (h0 : -2 ^ 31 ≤ w) (h1 : w < 2 ^ 31) :
    bitOf w 31 = decide (w < 0) := by
  unfold bitOf
  norm_num at h0 h1 ⊢
  by_cases hw : w < 0
  · have : w / 2147483648 % 2 = 1 := by omega
    simp [hw, this]
  · have : ¬ (w / 2147483648 % 2 = 1) := by omega
    simp [hw, this]

/-! ## The status decoder -/

/-- C1: every S1 field of the decoded record is determined by s1 alone and is the documented bit of
s1 (GPSValid bit 0 up to HardDiskInvalid bit 31), HardDriveStatus being bits 8-9,
ThreeGModuleStatus bits 10-12 and HardDisk2Status bits 29-30 read as unsigned numbers. -/
theorem parse_s1_fields (s1 s2 s3 s4 : Int) :
    (ParseEquipmentStatus s1 s2 s3 s4).GPSValid = bitOf s1 0 ∧
    (ParseEquipmentStatus s1 s2 s3 s4).ACCStatus = bitOf s1 1 ∧
    (ParseEquipmentStatus s1 s2 s3 s4).LeftTurn = bitOf s1 2 ∧
    (ParseEquipmentStatus s1 s2 s3 s4).RightTurn = bitOf s1 3 ∧
    (ParseEquipmentStatus s1 s2 s3 s4).FatigueWarning = bitOf s1 4 ∧
    (ParseEquipmentStatus s1 s2 s3 s4).ForwardRotation = bitOf s1 5 ∧
    (ParseEquipmentStatus s1 s2 s3 s4).ReverseState = bitOf s1 6 ∧
    (ParseEquipmentStatus s1 s2 s3 s4).GPSAntennaPresent = bitOf s1 7 ∧
    (ParseEquipmentStatus s1 s2 s3 s4).HardDriveStatus = bitsOf s1 8 2 ∧
    (ParseEquipmentStatus s1 s2 s3 s4).ThreeGModuleStatus = bitsOf s1 10 3 ∧
    (ParseEquipmentStatus s1 s2 s3 s4).QuiescentState = bitOf s1 13 ∧
    (ParseEquipmentStatus s1 s2 s3 s4).OverspeedState = bitOf s1 14 ∧
    (ParseEquipmentStatus s1 s2 s3 s4).GPSSupplement = bitOf s1 15 ∧
    (ParseEquipmentStatus s1 s2 s3 s4).BatteryStatus = bitOf s1 16 ∧
    (ParseEquipmentStatus s1 s2 s3 s4).NightState = bitOf s1 17 ∧
    (ParseEquipmentStatus s1 s2 s3 s4).OvercrowdingStatus = bitOf s1 18 ∧
    (ParseEquipmentStatus s1 s2 s3 s4).ParkingACCStatus = bitOf s1 19 ∧
    (ParseEquipmentStatus s1 s2 s3 s4).IO1Status = bitOf s1 20 ∧
    (ParseEquipmentStatus s1 s2 s3 s4).IO2Status = bitOf s1 21 ∧
    (ParseEquipmentStatus s1 s2 s3 s4).IO3Status = bitOf s1 22 ∧
    (ParseEquipmentStatus s1 s2 s3 s4).IO4Status = bitOf s1 23 ∧
    (ParseEquipmentStatus s1 s2 s3 s4).IO5Status = bitOf s1 24 ∧
    (ParseEquipmentStatus s1 s2 s3 s4).IO6Status = bitOf s1 25 ∧
    (ParseEquipmentStatus s1 s2 s3 s4).IO7Status = bitOf s1 26 ∧
    (ParseEquipmentStatus s1 s2 s3 s4).IO8Status = bitOf s1 27 ∧
    (ParseEquipmentStatus s1 s2 s3 s4).Drive2Status = bitOf s1 28 ∧
    (ParseEquipmentStatus s1 s2 s3 s4).HardDisk2Status = bitsOf s1 29 2 ∧
    (ParseEquipmentStatus s1 s2 s3 s4).HardDiskInvalid = bitOf s1 31 :=
  ⟨flag_lit s1 0x01 0 (by norm_num),
    flag_lit s1 0x02 1 (by norm_num),
    flag_lit s1 0x04 2 (by norm_num),
    flag_lit s1 0x08 3 (by norm_num),
    flag_lit s1 0x10 4 (by norm_num),
    flag_lit s1 0x20 5 (by norm_num),
    flag_lit s1 0x40 6 (by norm_num),
    flag_lit s1 0x80 7 (by norm_num),
    field_lit s1 0x03 8 2 (by norm_num),
    field_lit s1 0x07 10 3 (by norm_num),
    flag_lit s1 0x2000 13 (by norm_num),
    flag_lit s1 0x4000 14 (by norm_num),
    flag_lit s1 0x8000 15 (by norm_num),
    flag_lit s1 0x10000 16 (by norm_num),
    flag_lit s1 0x20000 17 (by norm_num),
    flag_lit s1 0x40000 18 (by norm_num),
    flag_lit s1 0x80000 19 (by norm_num),
    flag_lit s1 0x100000 20 (by norm_num),
    flag_lit s1 0x200000 21 (by norm_num),
    flag_lit s1 0x400000 22 (by norm_num),
    flag_lit s1 0x800000 23 (by norm_num),
    flag_lit s1 0x1000000 24 (by norm_num),
    flag_lit s1 0x2000000 25 (by norm_num),
    flag_lit s1 0x4000000 26 (by norm_num),
    flag_lit s1 0x8000000 27 (by norm_num),
    flag_lit s1 0x10000000 28 (by norm_num),
    field_lit s1 0x03 29 2 (by norm_num),
    flag_lit s1 0x80000000 31 (by norm_num)⟩

/-- C2: every S2 field of the decoded record is determined by s2 alone and is one bit of s2: bits
0..15 are OutOfAreaAlarm .. BatteryVoltageLow in order, bits 17..31 are EngineStatus ..
FatigueDriving in order; the bit positions are pairwise distinct. -/
theorem parse_s2_fields (s1 s2 s3 s4 : Int) :
    (ParseEquipmentStatus s1 s2 s3 s4).OutOfAreaAlarm = bitOf s2 0 ∧
    (ParseEquipmentStatus s1 s2 s3 s4).LineAlarm = bitOf s2 1 ∧
    (ParseEquipmentStatus s1 s2 s3 s4).HighSpeedInAreaAlarm = bitOf s2 2 ∧
    (ParseEquipmentStatus s1 s2 s3 s4).LowSpeedInAreaAlarm = bitOf s2 3 ∧
    (ParseEquipmentStatus s1 s2 s3 s4).HighSpeedOutsideAreaAlarm = bitOf s2 4 ∧
    (ParseEquipmentStatus s1 s2 s3 s4).LowSpeedOutsideAreaAlarm = bitOf s2 5 ∧
    (ParseEquipmentStatus s1 s2 s3 s4).ParkingInAreaAlarm = bitOf s2 6 ∧
    (ParseEquipmentStatus s1 s2 s3 s4).OutOfAreaParkingAlarm = bitOf s2 7 ∧
    (ParseEquipmentStatus s1 s2 s3 s4).DailyFlowWarning = bitOf s2 8 ∧
    (ParseEquipmentStatus s1 s2 s3 s4).DailyFlowExceeded = bitOf s2 9 ∧
    (ParseEquipmentStatus s1 s2 s3 s4).MonthlyTrafficWarning = bitOf s2 10 ∧
    (ParseEquipmentStatus s1 s2 s3 s4).MonthlyFlowExceeded = bitOf s2 11 ∧
    (ParseEquipmentStatus s1 s2 s3 s4).BackupBatteryPowered = bitOf s2 12 ∧
    (ParseEquipmentStatus s1 s2 s3 s4).DoorOpen = bitOf s2 13 ∧
    (ParseEquipmentStatus s1 s2 s3 s4).VehicleFortification = bitOf s2 14 ∧
    (ParseEquipmentStatus s1 s2 s3 s4).BatteryVoltageLow = bitOf s2 15 ∧
    (ParseEquipmentStatus s1 s2 s3 s4).EngineStatus = bitOf s2 17 ∧
    (ParseEquipmentStatus s1 s2 s3 s4).LastValidGPSInfo = bitOf s2 18 ∧
    (ParseEquipmentStatus s1 s2 s3 s4).OnBoardStatus = bitOf s2 19 ∧
    (ParseEquipmentStatus s1 s2 s3 s4).OperationStatus = bitOf s2 20 ∧
    (ParseEquipmentStatus s1 s2 s3 s4).LatLngNotEncrypted = bitOf s2 21 ∧
    (ParseEquipmentStatus s1 s2 s3 s4).NormalOilCircuit = bitOf s2 22 ∧
    (ParseEquipmentStatus s1 s2 s3 s4).CircuitOK = bitOf s2 23 ∧
    (ParseEquipmentStatus s1 s2 s3 s4).DoorUnlock = bitOf s2 24 ∧
    (ParseEquipmentStatus s1 s2 s3 s4).AreaOverspeedPlatform = bitOf s2 25 ∧
    (ParseEquipmentStatus s1 s2 s3 s4).AreaOverspeedPlatform2 = bitOf s2 26 ∧
    (ParseEquipmentStatus s1 s2 s3 s4).IntoAreaAlarm = bitOf s2 27 ∧
    (ParseEquipmentStatus s1 s2 s3 s4).LineOffset = bitOf s2 28 ∧
    (ParseEquipmentStatus s1 s2 s3 s4).TimePeriodOverspeed = bitOf s2 29 ∧
    (ParseEquipmentStatus s1 s2 s3 s4).TimePeriodLowSpeed = bitOf s2 30 ∧
    (ParseEquipmentStatus s1 s2 s3 s4).FatigueDriving = bitOf s2 31 :=
  ⟨flag_lit s2 0x01 0 (by norm_num),
    flag_lit s2 0x02 1 (by norm_num),
    flag_lit s2 0x04 2 (by norm_num),
    flag_lit s2 0x08 3 (by norm_num),
    flag_lit s2 0x10 4 (by norm_num),
    flag_lit s2 0x20 5 (by norm_num),
    flag_lit s2 0x40 6 (by norm_num),
    flag_lit s2 0x80 7 (by norm_num),
    flag_lit s2 0x100 8 (by norm_num),
    flag_lit s2 0x200 9 (by norm_num),
    flag_lit s2 0x400 10 (by norm_num),
    flag_lit s2 0x800 11 (by norm_num),
    flag_lit s2 0x1000 12 (by norm_num),
    flag_lit s2 0x2000 13 (by norm_num),
    flag_lit s2 0x4000 14 (by norm_num),
    flag_lit s2 0x8000 15 (by norm_num),
    flag_lit s2 0x20000 17 (by norm_num),
    flag_lit s2 0x40000 18 (by norm_num),
    flag_lit s2 0x80000 19 (by norm_num),
    flag_lit s2 0x100000 20 (by norm_num),
    flag_lit s2 0x200000 21 (by norm_num),
    flag_lit s2 0x400000 22 (by norm_num),
    flag_lit s2 0x800000 23 (by norm_num),
    flag_lit s2 0x1000000 24 (by norm_num),
    flag_lit s2 0x2000000 25 (by norm_num),
    flag_lit s2 0x4000000 26 (by norm_num),
    flag_lit s2 0x8000000 27 (by norm_num),
    flag_lit s2 0x10000000 28 (by norm_num),
    flag_lit s2 0x20000000 29 (by norm_num),
    flag_lit s2 0x40000000 30 (by norm_num),
    flag_lit s2 0x80000000 31 (by norm_num)⟩

/-- C3: the S3 fields are determined by s3 alone: VideoLostChannels is bits 0-7, VideoChannels bits
8-15, IOInputs916 bits 16-23, IOOutput14 bits 24-27, PositioningType bits 28-29 (each read as an
unsigned number), AbnormalDrivingState bit 30 and MountainForbidden bit 31. -/
theorem parse_s3_fields (s1 s2 s3 s4 : Int) :
    ((ParseEquipmentStatus s1 s2 s3 s4).VideoLostChannels : Int) = bitsOf s3 0 8 ∧
    ((ParseEquipmentStatus s1 s2 s3 s4).VideoChannels : Int) = bitsOf s3 8 8 ∧
    ((ParseEquipmentStatus s1 s2 s3 s4).IOInputs916 : Int) = bitsOf s3 16 8 ∧
    ((ParseEquipmentStatus s1 s2 s3 s4).IOOutput14 : Int) = bitsOf s3 24 4 ∧
    ((ParseEquipmentStatus s1 s2 s3 s4).PositioningType : Int) = bitsOf s3 28 2 ∧
    (ParseEquipmentStatus s1 s2 s3 s4).AbnormalDrivingState = bitOf s3 30 ∧
    (ParseEquipmentStatus s1 s2 s3 s4).MountainForbidden = bitOf s3 31 :=
  ⟨uint8_mask s3 0xFF 8 (by norm_num) (by norm_num),
    uint8_field s3 0xFF 8 8 (by norm_num) (by norm_num),
    uint8_field s3 0xFF 16 8 (by norm_num) (by norm_num),
    uint8_field s3 0x0F 24 4 (by norm_num) (by norm_num),
    uint8_field s3 0x03 28 2 (by norm_num) (by norm_num),
    flag_lit s3 0x40000000 30 (by norm_num),
    flag_lit s3 0x80000000 31 (by norm_num)⟩

/-- C4: the S4 fields are determined by s4 alone: PositioningCoordType is bits 0-2 read as an
unsigned number, and the 29 flags EmergencyAlarm .. KeyPointNotLeaveAlarm are, in that order,
bits 3..31 of s4. -/
theorem parse_s4_fields (s1 s2 s3 s4 : Int) :
    ((ParseEquipmentStatus s1 s2 s3 s4).PositioningCoordType : Int) = bitsOf s4 0 3 ∧
    (ParseEquipmentStatus s1 s2 s3 s4).EmergencyAlarm = bitOf s4 3 ∧
    (ParseEquipmentStatus s1 s2 s3 s4).AreaOverspeedAlarm = bitOf s4 4 ∧
    (ParseEquipmentStatus s1 s2 s3 s4).FatigueDrivingReport = bitOf s4 5 ∧
    (ParseEquipmentStatus s1 s2 s3 s4).DangerousDrivingAlarm = bitOf s4 6 ∧
    (ParseEquipmentStatus s1 s2 s3 s4).GNSSModuleFault = bitOf s4 7 ∧
    (ParseEquipmentStatus s1 s2 s3 s4).GNSSAntennaDisconnected = bitOf s4 8 ∧
    (ParseEquipmentStatus s1 s2 s3 s4).GNSSAntennaShortCircuit = bitOf s4 9 ∧
    (ParseEquipmentStatus s1 s2 s3 s4).TerminalLCDFault = bitOf s4 10 ∧
    (ParseEquipmentStatus s1 s2 s3 s4).TTSModuleFault = bitOf s4 11 ∧
    (ParseEquipmentStatus s1 s2 s3 s4).CameraFailure = bitOf s4 12 ∧
    (ParseEquipmentStatus s1 s2 s3 s4).CumulativeDrivingOvertime = bitOf s4 13 ∧
    (ParseEquipmentStatus s1 s2 s3 s4).OvertimeParking = bitOf s4 14 ∧
    (ParseEquipmentStatus s1 s2 s3 s4).IntoArea = bitOf s4 15 ∧
    (ParseEquipmentStatus s1 s2 s3 s4).RouteAlarm = bitOf s4 16 ∧
    (ParseEquipmentStatus s1 s2 s3 s4).TravelTimeAbnormal = bitOf s4 17 ∧
    (ParseEquipmentStatus s1 s2 s3 s4).RouteDeviationAlarm = bitOf s4 18 ∧
    (ParseEquipmentStatus s1 s2 s3 s4).VSSFailure = bitOf s4 19 ∧
    (ParseEquipmentStatus s1 s2 s3 s4).FuelQuantityAbnormal = bitOf s4 20 ∧
    (ParseEquipmentStatus s1 s2 s3 s4).VehicleTheftAlarm = bitOf s4 21 ∧
    (ParseEquipmentStatus s1 s2 s3 s4).IllegalIgnitionAlarm = bitOf s4 22 ∧
    (ParseEquipmentStatus s1 s2 s3 s4).IllegalDisplacementAlarm = bitOf s4 23 ∧
    (ParseEquipmentStatus s1 s2 s3 s4).CollisionRolloverAlarm = bitOf s4 24 ∧
    (ParseEquipmentStatus s1 s2 s3 s4).OvertimeStop = bitOf s4 25 ∧
    (ParseEquipmentStatus s1 s2 s3 s4).KeyPointNotReachedAlarm = bitOf s4 26 ∧
    (ParseEquipmentStatus s1 s2 s3 s4).LineOverspeedAlarm = bitOf s4 27 ∧
    (ParseEquipmentStatus s1 s2 s3 s4).LineLowSpeedAlarm = bitOf s4 28 ∧
    (ParseEquipmentStatus s1 s2 s3 s4).RoadOverspeedAlarm = bitOf s4 29 ∧
    (ParseEquipmentStatus s1 s2 s3 s4).OutOfAreaAlarmPlatform = bitOf s4 30 ∧
    (ParseEquipmentStatus s1 s2 s3 s4).KeyPointNotLeaveAlarm = bitOf s4 31 :=
  ⟨uint8_mask s4 0x07 3 (by norm_num) (by norm_num),
    flag_lit s4 0x08 3 (by norm_num),
    flag_lit s4 0x10 4 (by norm_num),
    flag_lit s4 0x20 5 (by norm_num),
    flag_lit s4 0x40 6 (by norm_num),
    flag_lit s4 0x80 7 (by norm_num),
    flag_lit s4 0x100 8 (by norm_num),
    flag_lit s4 0x200 9 (by norm_num),
    flag_lit s4 0x400 10 (by norm_num),
    flag_lit s4 0x800 11 (by norm_num),
    flag_lit s4 0x1000 12 (by norm_num),
    flag_lit s4 0x2000 13 (by norm_num),
    flag_lit s4 0x4000 14 (by norm_num),
    flag_lit s4 0x8000 15 (by norm_num),
    flag_lit s4 0x10000 16 (by norm_num),
    flag_lit s4 0x20000 17 (by norm_num),
    flag_lit s4 0x40000 18 (by norm_num),
    flag_lit s4 0x80000 19 (by norm_num),
    flag_lit s4 0x100000 20 (by norm_num),
    flag_lit s4 0x200000 21 (by norm_num),
    flag_lit s4 0x400000 22 (by norm_num),
    flag_lit s4 0x800000 23 (by norm_num),
    flag_lit s4 0x1000000 24 (by norm_num),
    flag_lit s4 0x2000000 25 (by norm_num),
    flag_lit s4 0x4000000 26 (by norm_num),
    flag_lit s4 0x8000000 27 (by norm_num),
    flag_lit s4 0x10000000 28 (by norm_num),
    flag_lit s4 0x20000000 29 (by norm_num),
    flag_lit s4 0x40000000 30 (by norm_num),
    flag_lit s4 0x80000000 31 (by norm_num)⟩

/-- C5: the decoder is a total function and treats the sign bit as bit 31: for a word in the
signed 32-bit range its bit-31 flag (HardDiskInvalid, FatigueDriving, MountainForbidden,
KeyPointNotLeaveAlarm) is set exactly when the word is negative; the record decoded from any
four integers equals the record decoded from the unsigned words (each taken modulo 2^32); and
every multi-bit field lies within its mask range. -/
theorem parse_sign_bit (s1 s2 s3 s4 : Int) :
    (-2 ^ 31 ≤ s1 → s1 < 2 ^ 31 →
      (ParseEquipmentStatus s1 s2 s3 s4).HardDiskInvalid = decide (s1 < 0)) ∧
    (-2 ^ 31 ≤ s2 → s2 < 2 ^ 31 →
      (ParseEquipmentStatus s1 s2 s3 s4).FatigueDriving = decide (s2 < 0)) ∧
    (-2 ^ 31 ≤ s3 → s3 < 2 ^ 31 →
      (ParseEquipmentStatus s1 s2 s3 s4).MountainForbidden = decide (s3 < 0)) ∧
    (-2 ^ 31 ≤ s4 → s4 < 2 ^ 31 →
      (ParseEquipmentStatus s1 s2 s3 s4).KeyPointNotLeaveAlarm = decide (s4 < 0)) ∧
    ParseEquipmentStatus s1 s2 s3 s4
      = ParseEquipmentStatus (s1 % 2 ^ 32) (s2 % 2 ^ 32) (s3 % 2 ^ 32) (s4 % 2 ^ 32) ∧
    (0 ≤ (ParseEquipmentStatus s1 s2 s3 s4).HardDriveStatus ∧
      (ParseEquipmentStatus s1 s2 s3 s4).HardDriveStatus ≤ 3) ∧
    (0 ≤ (ParseEquipmentStatus s1 s2 s3 s4).ThreeGModuleStatus ∧
      (ParseEquipmentStatus s1 s2 s3 s4).ThreeGModuleStatus ≤ 7) ∧
    (0 ≤ (ParseEquipmentStatus s1 s2 s3 s4).HardDisk2Status ∧
      (ParseEquipmentStatus s1 s2 s3 s4).HardDisk2Status ≤ 3) ∧
    (ParseEquipmentStatus s1 s2 s3 s4).VideoLostChannels ≤ 255 ∧
    (ParseEquipmentStatus s1 s2 s3 s4).VideoChannels ≤ 255 ∧
    (ParseEquipmentStatus s1 s2 s3 s4).IOInputs916 ≤ 255 ∧
    (ParseEquipmentStatus s1 s2 s3 s4).IOOutput14 ≤ 15 ∧
    (ParseEquipmentStatus s1 s2 s3 s4).PositioningType ≤ 3 ∧
    (ParseEquipmentStatus s1 s2 s3 s4).PositioningCoordType ≤ 7 := by
  have range : ∀ (x : Int) (w : Nat), 0 ≤ x → x < 2 ^ w → x ≤ 2 ^ w - 1 := by
    intro x w _ h; omega
  have natle : ∀ (a : Nat) (x : Int) (b : Nat), (a : Int) = x → x < (b : Int) + 1 → a ≤ b := by
    intro a x b h1 h2; omega
  refine ⟨?_, ?_, ?_, ?_, ?_, ?_, ?_, ?_, ?_, ?_, ?_, ?_, ?_, ?_⟩
  · intro h0 h1
    exact (flag_lit s1 0x80000000 31 (by norm_num)).trans (bitOf_31_of_int32 s1 h0 h1)
  · intro h0 h1
    exact (flag_lit s2 0x80000000 31 (by norm_num)).trans (bitOf_31_of_int32 s2 h0 h1)
  · intro h0 h1
    exact (flag_lit s3 0x80000000 31 (by norm_num)).trans (bitOf_31_of_int32 s3 h0 h1)
  · intro h0 h1
    exact (flag_lit s4 0x80000000 31 (by norm_num)).trans (bitOf_31_of_int32 s4 h0 h1)
  · simp (disch := norm_num) only [ParseEquipmentStatus, land_emod, shift_land_emod]
  · have h := field_lit s1 0x03 8 2 (by norm_num)
    have a := bitsOf_nonneg s1 8 2
    have b := bitsOf_lt s1 8 2
    show 0 ≤ Int.land (Int.shiftRight s1 8) 0x03 ∧ Int.land (Int.shiftRight s1 8) 0x03 ≤ 3
    rw [h]; norm_num at b; omega
  · have h := field_lit s1 0x07 10 3 (by norm_num)
    have a := bitsOf_nonneg s1 10 3
    have b := bitsOf_lt s1 10 3
    show 0 ≤ Int.land (Int.shiftRight s1 10) 0x07 ∧ Int.land (Int.shiftRight s1 10) 0x07 ≤ 7
    rw [h]; norm_num at b; omega
  · have h := field_lit s1 0x03 29 2 (by norm_num)
    have a := bitsOf_nonneg s1 29 2
    have b := bitsOf_lt s1 29 2
    show 0 ≤ Int.land (Int.shiftRight s1 29) 0x03 ∧ Int.land (Int.shiftRight s1 29) 0x03 ≤ 3
    rw [h]; norm_num at b; omega
  · have b := bitsOf_lt s3 0 8
    exact natle _ _ 255 (uint8_mask s3 0xFF 8 (by norm_num) (by norm_num)) (by norm_num at b ⊢; exact b)
  · have b := bitsOf_lt s3 8 8
    exact natle _ _ 255 (uint8_field s3 0xFF 8 8 (by norm_num) (by norm_num)) (by norm_num at b ⊢; exact b)
  · have b := bitsOf_lt s3 16 8
    exact natle _ _ 255 (uint8_field s3 0xFF 16 8 (by norm_num) (by norm_num)) (by norm_num at b ⊢; exact b)
  · have b := bitsOf_lt s3 24 4
    exact natle _ _ 15 (uint8_field s3 0x0F 24 4 (by norm_num) (by norm_num)) (by norm_num at b ⊢; exact b)
  · have b := bitsOf_lt s3 28 2
    exact natle _ _ 3 (uint8_field s3 0x03 28 2 (by norm_num) (by norm_num)) (by norm_num at b ⊢; exact b)
  · have b := bitsOf_lt s4 0 3
    exact natle _ _ 7 (uint8_mask s4 0x07 3 (by norm_num) (by norm_num)) (by norm_num at b ⊢; exact b)

/-- Witness for C5: the words -1, -2147483648, 2147483647 and 0 are signed 32-bit values; the
bit-31 flags of the first two are set and those of the last two are clear. -/
theorem parse_sign_bit_witness :
    (ParseEquipmentStatus (-1) (-2147483648) 2147483647 0).HardDiskInvalid
      = decide ((-1 : Int) < 0) ∧
    (ParseEquipmentStatus (-1) (-2147483648) 2147483647 0).FatigueDriving
      = decide ((-2147483648 : Int) < 0) ∧
    (ParseEquipmentStatus (-1) (-2147483648) 2147483647 0).MountainForbidden
      = decide ((2147483647 : Int) < 0) ∧
    (ParseEquipmentStatus (-1) (-2147483648) 2147483647 0).KeyPointNotLeaveAlarm
      = decide ((0 : Int) < 0) :=
  ⟨(parse_sign_bit (-1) (-2147483648) 2147483647 0).1 (by norm_num) (by norm_num),
    (parse_sign_bit (-1) (-2147483648) 2147483647 0).2.1 (by norm_num) (by norm_num),
    (parse_sign_bit (-1) (-2147483648) 2147483647 0).2.2.1 (by norm_num) (by norm_num),
    (parse_sign_bit (-1) (-2147483648) 2147483647 0).2.2.2.1 (by norm_num) (by norm_num)⟩

/-- C6: bit 16 of s2 is not decoded: two values of s2 that agree on every bit other than bit 16
give the same decoded record, whatever s1, s3 and s4 are. -/
theorem parse_ignores_s2_bit16 (s1 s2 s2' s3 s4 : Int)
    (h : ∀ k : Nat, k ≠ 16 → bitOf s2 k = bitOf s2' k) :
    ParseEquipmentStatus s1 s2 s3 s4 = ParseEquipmentStatus s1 s2' s3 s4 := by
  have e0 := flag_congr s2 s2' 0x01 0 (by norm_num) (h 0 (by decide))
  have e1 := flag_congr s2 s2' 0x02 1 (by norm_num) (h 1 (by decide))
  have e2 := flag_congr s2 s2' 0x04 2 (by norm_num) (h 2 (by decide))
  have e3 := flag_congr s2 s2' 0x08 3 (by norm_num) (h 3 (by decide))
  have e4 := flag_congr s2 s2' 0x10 4 (by norm_num) (h 4 (by decide))
  have e5 := flag_congr s2 s2' 0x20 5 (by norm_num) (h 5 (by decide))
  have e6 := flag_congr s2 s2' 0x40 6 (by norm_num) (h 6 (by decide))
  have e7 := flag_congr s2 s2' 0x80 7 (by norm_num) (h 7 (by decide))
  have e8 := flag_congr s2 s2' 0x100 8 (by norm_num) (h 8 (by decide))
  have e9 := flag_congr s2 s2' 0x200 9 (by norm_num) (h 9 (by decide))
  have e10 := flag_congr s2 s2' 0x400 10 (by norm_num) (h 10 (by decide))
  have e11 := flag_congr s2 s2' 0x800 11 (by norm_num) (h 11 (by decide))
  have e12 := flag_congr s2 s2' 0x1000 12 (by norm_num) (h 12 (by decide))
  have e13 := flag_congr s2 s2' 0x2000 13 (by norm_num) (h 13 (by decide))
  have e14 := flag_congr s2 s2' 0x4000 14 (by norm_num) (h 14 (by decide))
  have e15 := flag_congr s2 s2' 0x8000 15 (by norm_num) (h 15 (by decide))
  have e17 := flag_congr s2 s2' 0x20000 17 (by norm_num) (h 17 (by decide))
  have e18 := flag_congr s2 s2' 0x40000 18 (by norm_num) (h 18 (by decide))
  have e19 := flag_congr s2 s2' 0x80000 19 (by norm_num) (h 19 (by decide))
  have e20 := flag_congr s2 s2' 0x100000 20 (by norm_num) (h 20 (by decide))
  have e21 := flag_congr s2 s2' 0x200000 21 (by norm_num) (h 21 (by decide))
  have e22 := flag_congr s2 s2' 0x400000 22 (by norm_num) (h 22 (by decide))
  have e23 := flag_congr s2 s2' 0x800000 23 (by norm_num) (h 23 (by decide))
  have e24 := flag_congr s2 s2' 0x1000000 24 (by norm_num) (h 24 (by decide))
  have e25 := flag_congr s2 s2' 0x2000000 25 (by norm_num) (h 25 (by decide))
  have e26 := flag_congr s2 s2' 0x4000000 26 (by norm_num) (h 26 (by decide))
  have e27 := flag_congr s2 s2' 0x8000000 27 (by norm_num) (h 27 (by decide))
  have e28 := flag_congr s2 s2' 0x10000000 28 (by norm_num) (h 28 (by decide))
  have e29 := flag_congr s2 s2' 0x20000000 29 (by norm_num) (h 29 (by decide))
  have e30 := flag_congr s2 s2' 0x40000000 30 (by norm_num) (h 30 (by decide))
  have e31 := flag_congr s2 s2' 0x80000000 31 (by norm_num) (h 31 (by decide))
  simp only [ParseEquipmentStatus, e0, e1, e2, e3, e4, e5, e6, e7, e8, e9, e10, e11, e12, e13, e14, e15, e17, e18, e19, e20, e21, e22, e23, e24, e25, e26, e27, e28, e29, e30, e31]

theorem bitOf_zero (k : Nat) : bitOf 0 k = false := by
  rw [← int_testBit_eq_bitOf, int_testBit_zero]

theorem bitOf_65536 (k : Nat) (hk : k ≠ 16) : bitOf 65536 k = false := by
  rw [← int_testBit_eq_bitOf, show (65536 : Int) = 2 ^ 16 by norm_num, int_testBit_ofNat_pow]
  exact decide_eq_false (fun h => hk h.symm)

/-- Witness for C6: 0 and 65536 differ in bit 16 only, and decode to the same record. -/
theorem parse_ignores_s2_bit16_witness :
    (∀ k : Nat, k ≠ 16 → bitOf 0 k = bitOf 65536 k) ∧
    ParseEquipmentStatus 1 0 2 3 = ParseEquipmentStatus 1 65536 2 3 :=
  ⟨fun k hk => (bitOf_zero k).trans (bitOf_65536 k hk).symm,
    parse_ignores_s2_bit16 1 0 65536 2 3
      (fun k hk => (bitOf_zero k).trans (bitOf_65536 k hk).symm)⟩

/-! ## Decimal rendering -/

theorem digitChar_ne_slash (m : Nat) (h : m < 10) : Nat.digitChar m ≠ '/' := by
  interval_cases m <;> decide

theorem digitChar_eq_zero (m : Nat) (h : m < 10) (h0 : Nat.digitChar m = '0') : m = 0 := by
  interval_cases m <;> first | rfl | (exact absurd h0 (by decide))

theorem toDigitsCore_mem (fuel : Nat) : ∀ (n : Nat) (ds : List Char) (c : Char),
    c ∈ Nat.toDigitsCore 10 fuel n ds → c ∈ ds ∨ ∃ m, m < 10 ∧ c = Nat.digitChar m := by
  induction fuel with
  | zero => intro n ds c h; exact Or.inl h
  | succ f ih =>
    intro n ds c h
    simp only [Nat.toDigitsCore] at h
    split at h
    · rcases List.mem_cons.1 h with h | h
      · exact Or.inr ⟨n % 10, Nat.mod_lt _ (by decide), h⟩
      · exact Or.inl h
    · rcases ih _ _ _ h with h | h
      · rcases List.mem_cons.1 h with h | h
        · exact Or.inr ⟨n % 10, Nat.mod_lt _ (by decide), h⟩
        · exact Or.inl h
      · exact Or.inr h

theorem toDigitsCore_length (fuel : Nat) : ∀ (n : Nat) (ds : List Char),
    ds.length + 1 ≤ (Nat.toDigitsCore 10 (fuel + 1) n ds).length := by
  induction fuel with
  | zero =>
    intro n ds
    simp only [Nat.toDigitsCore]
    split <;> simp
  | succ f ih =>
    intro n ds
    rw [Nat.toDigitsCore]
    split
    · simp
    · have := ih (n / 10) (Nat.digitChar (n % 10) :: ds)
      simp only [List.length_cons] at this
      omega

theorem toDigits_zero_slash (n : Nat) (rest rest' : List Char)
    (h : Nat.toDigits 10 n ++ rest = '0' :: '/' :: rest') : n = 0 := by
  unfold Nat.toDigits at h
  rw [Nat.toDigitsCore] at h
  split at h
  · rename_i hn
    simp only [List.singleton_append, List.cons.injEq] at h
    have h10 : n < 10 := by omega
    have := digitChar_eq_zero (n % 10) (Nat.mod_lt _ (by decide)) h.1
    omega
  · rename_i hn
    exfalso
    have hpos : 1 ≤ n := by omega
    obtain ⟨f, rfl⟩ : ∃ f, n = f + 1 := ⟨n - 1, by omega⟩
    have hlen := toDigitsCore_length f ((f + 1) / 10) [Nat.digitChar ((f + 1) % 10)]
    have hmem := toDigitsCore_mem (f + 1) ((f + 1) / 10) [Nat.digitChar ((f + 1) % 10)]
    generalize Nat.toDigitsCore 10 (f + 1) ((f + 1) / 10) [Nat.digitChar ((f + 1) % 10)] = L at h hlen hmem
    match L, hlen, hmem, h with
    | a :: b :: t, _, hmem, h =>
      simp only [List.cons_append, List.cons.injEq] at h
      have hb : b = '/' := h.2.1
      rcases hmem b (by simp) with hm | ⟨m, hm, hc⟩
      · rcases List.mem_singleton.1 hm with hm
        exact digitChar_ne_slash _ (Nat.mod_lt _ (by decide)) (hm ▸ hb)
      · exact digitChar_ne_slash m hm (hc ▸ hb)
    | [a], hlen, _, _ => simp at hlen
    | [], hlen, _, _ => simp at hlen

theorem int_toString_zero_slash (p : Int) (rest rest' : List Char)
    (h : (toString p).data ++ rest = '0' :: '/' :: rest') : p = 0 := by
  cases p with
  | ofNat n =>
    have : n = 0 := toDigits_zero_slash n rest rest' h
    subst this; rfl
  | negSucc n =>
    exfalso
    have e : (toString (Int.negSucc n)).data = '-' :: (toString (n + 1)).data := rfl
    rw [e] at h
    simp only [List.cons_append, List.cons.injEq] at h
    exact absurd h.1 (by decide)

/-! ## The link builders -/

theorem sprintf_rtsp (host js dev : String) (p a ch st : Int) :
    Sprintf "rtsp://%s:%d/3/3?AVType=%d&jsession=%s&DevIDNO=%s&Channel=%d&Stream=%d"
      [.str host, .int p, .int a, .str js, .str dev, .int ch, .int st]
    = streamURL "rtsp" host p a js dev ch st := by
  apply String.ext
  simp [streamURL, Sprintf, Sprintf.go, FmtArg.render, String.data_append]

theorem sprintf_rtmp (host js dev : String) (p a ch st : Int) :
    Sprintf "rtmp://%s:%d/3/3?AVType=%d&jsession=%s&DevIDNO=%s&Channel=%d&Stream=%d"
      [.str host, .int p, .int a, .str js, .str dev, .int ch, .int st]
    = streamURL "rtmp" host p a js dev ch st := by
  apply String.ext
  simp [streamURL, Sprintf, Sprintf.go, FmtArg.render, String.data_append]

theorem sprintf_hls (host js dev : String) (p r ch st : Int) :
    Sprintf "https://%s:%d/hls/%d_%s_%d_%d.m3u8?jsession=%s"
      [.str host, .int p, .int r, .str dev, .int ch, .int st, .str js]
    = hlsURL host p r dev ch st js := by
  apply String.ext
  simp [hlsURL, Sprintf, Sprintf.go, FmtArg.render, String.data_append]

theorem GenerateRTSPLink_eq (config : AppConfig) (opts : RTSPLinkOptions) :
    GenerateRTSPLink config opts
    = streamURL "rtsp" opts.ServerHost
        (if opts.ServerPort = 0 then config.RTSPPort else opts.ServerPort)
        (if opts.AVType = 0 then 1 else opts.AVType)
        opts.JSession opts.DevIDNO opts.Channel opts.Stream := by
  unfold GenerateRTSPLink
  rw [← sprintf_rtsp]
  by_cases hp : opts.ServerPort = 0 <;> by_cases ha : opts.AVType = 0 <;> simp [hp, ha]

theorem GenerateRTMPLink_eq (config : AppConfig) (opts : RTMPLinkOptions) :
    GenerateRTMPLink config opts
    = streamURL "rtmp" opts.ServerHost
        (if opts.ServerPort = 0 then config.RTMPPort else opts.ServerPort)
        (if opts.AVType = 0 then 1 else opts.AVType)
        opts.JSession opts.DevIDNO opts.Channel opts.Stream := by
  unfold GenerateRTMPLink
  rw [← sprintf_rtmp]
  by_cases hp : opts.ServerPort = 0 <;> by_cases ha : opts.AVType = 0 <;> simp [hp, ha]

theorem GenerateHLSLink_eq (config : AppConfig) (opts : HLSLinkOptions) :
    GenerateHLSLink config opts
    = hlsURL opts.ServerHost
        (if opts.ServerPort = 0 then config.HLSPort else opts.ServerPort)
        (if opts.RequestType = 0 then 1 else opts.RequestType)
        opts.DevIDNO opts.Channel opts.Stream opts.JSession := by
  unfold GenerateHLSLink
  rw [← sprintf_hls]
  by_cases hp : opts.ServerPort = 0 <;> by_cases ha : opts.RequestType = 0 <;> simp [hp, ha]

theorem streamURL_split (scheme host : String) (port avType : Int) (jsession devIDNO : String)
    (channel stream : Int) :
    streamURL scheme host port avType jsession devIDNO channel stream
    = (scheme ++ "://") ++ (host ++ ":" ++ toString port ++ "/3/3?AVType=" ++ toString avType
        ++ "&jsession=" ++ jsession ++ "&DevIDNO=" ++ devIDNO ++ "&Channel=" ++ toString channel
        ++ "&Stream=" ++ toString stream) := by
  apply String.ext
  simp [streamURL, String.data_append]

/-- C7: for every options record the RTSP link is exactly
"rtsp://" + ServerHost + ":" + P + "/3/3?AVType=" + A + "&jsession=" + JSession + "&DevIDNO=" +
DevIDNO + "&Channel=" + Channel + "&Stream=" + Stream with the integers in decimal, where P is
config.RTSPPort when ServerPort is 0 and ServerPort otherwise, and A is 1 when AVType is 0 and
AVType otherwise; with RTSP port 6604 configured, host "h", port 0, session "tok", device "D1",
channel 2, stream 1 and AVType 0 the link is
rtsp://h:6604/3/3?AVType=1&jsession=tok&DevIDNO=D1&Channel=2&Stream=1. -/
theorem rtsp_link_format :
    (∀ (config : AppConfig) (opts : RTSPLinkOptions),
      GenerateRTSPLink config opts
      = "rtsp://" ++ opts.ServerHost ++ ":"
        ++ toString (if opts.ServerPort = 0 then config.RTSPPort else opts.ServerPort)
        ++ "/3/3?AVType=" ++ toString (if opts.AVType = 0 then 1 else opts.AVType)
        ++ "&jsession=" ++ opts.JSession ++ "&DevIDNO=" ++ opts.DevIDNO
        ++ "&Channel=" ++ toString opts.Channel ++ "&Stream=" ++ toString opts.Stream) ∧
    (∀ (url : String) (api rtmp hls : Int),
      GenerateRTSPLink ⟨url, api, rtmp, 6604, hls⟩ ⟨"h", 0, "tok", "D1", 2, 1, 0⟩
      = "rtsp://h:6604/3/3?AVType=1&jsession=tok&DevIDNO=D1&Channel=2&Stream=1") := by
  constructor
  · intro config opts
    rw [GenerateRTSPLink_eq]
    rfl
  · intro url api rtmp hls
    rw [GenerateRTSPLink_eq]
    show streamURL "rtsp" "h" 6604 1 "tok" "D1" 2 1 = _
    decide

/-- C8: for every options record the HLS link is exactly
"https://" + ServerHost + ":" + P + "/hls/" + R + "_" + DevIDNO + "_" + Channel + "_" + Stream +
".m3u8?jsession=" + JSession, where P is config.HLSPort when ServerPort is 0 and ServerPort
otherwise, and R is 1 when RequestType is 0 and RequestType otherwise; with HLS port 16604
configured, host "h", port 0, session "tok", device "D1", channel 0, stream 0 and request type 0
the link is https://h:16604/hls/1_D1_0_0.m3u8?jsession=tok. -/
theorem hls_link_format :
    (∀ (config : AppConfig) (opts : HLSLinkOptions),
      GenerateHLSLink config opts
      = "https://" ++ opts.ServerHost ++ ":"
        ++ toString (if opts.ServerPort = 0 then config.HLSPort else opts.ServerPort)
        ++ "/hls/" ++ toString (if opts.RequestType = 0 then 1 else opts.RequestType)
        ++ "_" ++ opts.DevIDNO ++ "_" ++ toString opts.Channel ++ "_" ++ toString opts.Stream
        ++ ".m3u8?jsession=" ++ opts.JSession) ∧
    (∀ (url : String) (api rtmp rtsp : Int),
      GenerateHLSLink ⟨url, api, rtmp, rtsp, 16604⟩ ⟨"h", 0, "tok", "D1", 0, 0, 0⟩
      = "https://h:16604/hls/1_D1_0_0.m3u8?jsession=tok") := by
  constructor
  · intro config opts
    rw [GenerateHLSLink_eq]
    rfl
  · intro url api rtmp rtsp
    rw [GenerateHLSLink_eq]
    show hlsURL "h" 16604 1 "D1" 0 0 "tok" = _
    decide

/-- C9: the RTMP builder has the query shape of the RTSP builder: for a non-zero port, the
RTSP link is "rtsp://" followed by some text and the RTMP link on the same values is
"rtmp://" followed by the same text; and with port 0 the RTMP builder formats
config.RTMPPort. -/
theorem rtmp_link_matches_rtsp (config : AppConfig) (host : String) (port : Int)
    (jsession devIDNO : String) (channel stream avType : Int) (hport : port ≠ 0) :
    (∃ tail : String,
      GenerateRTSPLink config ⟨host, port, jsession, devIDNO, channel, stream, avType⟩
        = "rtsp://" ++ tail ∧
      GenerateRTMPLink config ⟨host, port, jsession, devIDNO, channel, stream, avType⟩
        = "rtmp://" ++ tail) ∧
    GenerateRTMPLink config ⟨host, 0, jsession, devIDNO, channel, stream, avType⟩
      = "rtmp://" ++ host ++ ":" ++ toString config.RTMPPort ++ "/3/3?AVType="
        ++ toString (if avType = 0 then 1 else avType) ++ "&jsession=" ++ jsession
        ++ "&DevIDNO=" ++ devIDNO ++ "&Channel=" ++ toString channel
        ++ "&Stream=" ++ toString stream := by
  refine ⟨⟨host ++ ":" ++ toString port ++ "/3/3?AVType="
      ++ toString (if avType = 0 then 1 else avType) ++ "&jsession=" ++ jsession
      ++ "&DevIDNO=" ++ devIDNO ++ "&Channel=" ++ toString channel
      ++ "&Stream=" ++ toString stream, ?_, ?_⟩, ?_⟩
  · rw [GenerateRTSPLink_eq, streamURL_split]
    simp only [if_neg hport]
    rfl
  · rw [GenerateRTMPLink_eq, streamURL_split]
    simp only [if_neg hport]
    rfl
  · rw [GenerateRTMPLink_eq]
    rfl

/-- Witness for C9 at port 6604, with the RTMP port configured to 1935. -/
theorem rtmp_link_matches_rtsp_witness :
    (∃ tail : String,
      GenerateRTSPLink ⟨"https://cloud.samsonix.com", 443, 1935, 6604, 16604⟩
        ⟨"h", 6604, "tok", "D1", 2, 1, 0⟩ = "rtsp://" ++ tail ∧
      GenerateRTMPLink ⟨"https://cloud.samsonix.com", 443, 1935, 6604, 16604⟩
        ⟨"h", 6604, "tok", "D1", 2, 1, 0⟩ = "rtmp://" ++ tail) ∧
    GenerateRTMPLink ⟨"https://cloud.samsonix.com", 443, 1935, 6604, 16604⟩
        ⟨"h", 0, "tok", "D1", 2, 1, 0⟩
      = "rtmp://h:1935/3/3?AVType=1&jsession=tok&DevIDNO=D1&Channel=2&Stream=1" :=
  rtmp_link_matches_rtsp ⟨"https://cloud.samsonix.com", 443, 1935, 6604, 16604⟩
    "h" 6604 "tok" "D1" 2 1 0 (by decide)

/-- C10 (as amended): each builder formats the port P and the mode A that remain after
defaulting, the mode is never 0, and the port is 0 exactly when the options port and the
configured default port are both 0. -/
theorem builders_zero_placeholder (config : AppConfig) (r : RTSPLinkOptions)
    (m : RTMPLinkOptions) (h : HLSLinkOptions) :
    (GenerateRTSPLink config r
        = streamURL "rtsp" r.ServerHost
            (if r.ServerPort = 0 then config.RTSPPort else r.ServerPort)
            (if r.AVType = 0 then 1 else r.AVType) r.JSession r.DevIDNO r.Channel r.Stream ∧
      (if r.AVType = 0 then 1 else r.AVType) ≠ 0 ∧
      ((if r.ServerPort = 0 then config.RTSPPort else r.ServerPort) = 0
        ↔ r.ServerPort = 0 ∧ config.RTSPPort = 0)) ∧
    (GenerateRTMPLink config m
        = streamURL "rtmp" m.ServerHost
            (if m.ServerPort = 0 then config.RTMPPort else m.ServerPort)
            (if m.AVType = 0 then 1 else m.AVType) m.JSession m.DevIDNO m.Channel m.Stream ∧
      (if m.AVType = 0 then 1 else m.AVType) ≠ 0 ∧
      ((if m.ServerPort = 0 then config.RTMPPort else m.ServerPort) = 0
        ↔ m.ServerPort = 0 ∧ config.RTMPPort = 0)) ∧
    (GenerateHLSLink config h
        = hlsURL h.ServerHost
            (if h.ServerPort = 0 then config.HLSPort else h.ServerPort)
            (if h.RequestType = 0 then 1 else h.RequestType) h.DevIDNO h.Channel h.Stream
            h.JSession ∧
      (if h.RequestType = 0 then 1 else h.RequestType) ≠ 0 ∧
      ((if h.ServerPort = 0 then config.HLSPort else h.ServerPort) = 0
        ↔ h.ServerPort = 0 ∧ config.HLSPort = 0)) := by
  refine ⟨⟨GenerateRTSPLink_eq config r, ?_, ?_⟩, ⟨GenerateRTMPLink_eq config m, ?_, ?_⟩,
    ⟨GenerateHLSLink_eq config h, ?_, ?_⟩⟩
  · by_cases ha : r.AVType = 0 <;> simp [ha]
  · by_cases hp : r.ServerPort = 0 <;> simp [hp]
  · by_cases ha : m.AVType = 0 <;> simp [ha]
  · by_cases hp : m.ServerPort = 0 <;> simp [hp]
  · by_cases ha : h.RequestType = 0 <;> simp [ha]
  · by_cases hp : h.ServerPort = 0 <;> simp [hp]

/-- C10 fails as stated: with the RTSP port configured as 0 (a value `config.ini` may carry)
and an options record that leaves the port at 0, the link is
rtsp://h:0/3/3?AVType=1&jsession=tok&DevIDNO=D1&Channel=2&Stream=1, which is not the link of any
non-zero port and non-zero mode. -/
theorem zero_placeholder_counterexample :
    GenerateRTSPLink ⟨"https://cloud.samsonix.com", 443, 1935, 0, 16604⟩
        ⟨"h", 0, "tok", "D1", 2, 1, 0⟩
      = "rtsp://h:0/3/3?AVType=1&jsession=tok&DevIDNO=D1&Channel=2&Stream=1" ∧
    ¬ ∃ P A : Int, P ≠ 0 ∧ A ≠ 0 ∧
      GenerateRTSPLink ⟨"https://cloud.samsonix.com", 443, 1935, 0, 16604⟩
          ⟨"h", 0, "tok", "D1", 2, 1, 0⟩
        = streamURL "rtsp" "h" P A "tok" "D1" 2 1 := by
  have e : GenerateRTSPLink ⟨"https://cloud.samsonix.com", 443, 1935, 0, 16604⟩
        ⟨"h", 0, "tok", "D1", 2, 1, 0⟩
      = "rtsp://h:0/3/3?AVType=1&jsession=tok&DevIDNO=D1&Channel=2&Stream=1" := by decide
  refine ⟨e, ?_⟩
  rintro ⟨P, A, hP, _, h⟩
  rw [e] at h
  have hd := congrArg String.data h
  simp only [streamURL, String.data_append, List.append_assoc, List.cons_append,
    List.nil_append, List.cons.injEq, true_and] at hd
  exact hP (int_toString_zero_slash P _ _ hd.symm)

/-! ## Web player and live API links -/

theorem errorf_login (n : Int) :
    Errorf "login failed (result code %d)" [.int n]
      = ⟨"login failed (result code " ++ toString n ++ ")"⟩ := by
  unfold Errorf
  congr 1

theorem errorf_vehicle (n : Int) :
    Errorf "vehicle info request failed (result code %d)" [.int n]
      = ⟨"vehicle info request failed (result code " ++ toString n ++ ")"⟩ := by
  unfold Errorf
  congr 1

theorem errorf_alarm (n : Int) :
    Errorf "alarm request failed (result code %d)" [.int n]
      = ⟨"alarm request failed (result code " ++ toString n ++ ")"⟩ := by
  unfold Errorf
  congr 1

/-- C12: when the login answer is transported and decoded, a non-zero result field makes
login return the empty token together with the error "login failed (result code N)", whatever
the jsession field holds, and a zero result field makes it return the answer's jsession with no
error. -/
theorem login_result_code (config : AppConfig) (env : Env) (account password : String)
    (res : LoginResponse)
    (hget : (httpGetJSON env (Sprintf "%s?account=%s&password=%s"
      [.str (getLoginURL config), .str account, .str password])).err = none)
    (hdec : env.unmarshalLogin (httpGetJSON env (Sprintf "%s?account=%s&password=%s"
      [.str (getLoginURL config), .str account, .str password])).val = .ok res) :
    (res.Result ≠ 0 →
      (login config env account password).val = "" ∧
      (login config env account password).err
        = some ⟨"login failed (result code " ++ toString res.Result ++ ")"⟩) ∧
    (res.Result = 0 →
      (login config env account password).val = res.JSession ∧
      (login config env account password).err = none) := by
  constructor
  · intro h
    simp only [login, hget, hdec]
    simp [h, errorf_login]
  · intro h
    simp only [login, hget, hdec]
    simp [h]

/-- Witness for C12: an answer with result 5 and jsession "tok". -/
theorem login_result_code_witness :
    ((5 : Int) ≠ 0 →
      (login ⟨"https://cloud.samsonix.com", 443, 1935, 6604, 16604⟩
        (Env.scripted (.ok ⟨"body", none⟩) (.ok ⟨"body", none⟩) ⟨5, "tok"⟩ ⟨0, []⟩ ⟨0, [], []⟩
          ⟨0, [], ⟨0, 0, 0, 0⟩⟩) "a" "p").val = "" ∧
      (login ⟨"https://cloud.samsonix.com", 443, 1935, 6604, 16604⟩
        (Env.scripted (.ok ⟨"body", none⟩) (.ok ⟨"body", none⟩) ⟨5, "tok"⟩ ⟨0, []⟩ ⟨0, [], []⟩
          ⟨0, [], ⟨0, 0, 0, 0⟩⟩) "a" "p").err
        = some ⟨"login failed (result code " ++ toString (5 : Int) ++ ")"⟩) ∧
    ((5 : Int) = 0 →
      (login ⟨"https://cloud.samsonix.com", 443, 1935, 6604, 16604⟩
        (Env.scripted (.ok ⟨"body", none⟩) (.ok ⟨"body", none⟩) ⟨5, "tok"⟩ ⟨0, []⟩ ⟨0, [], []⟩
          ⟨0, [], ⟨0, 0, 0, 0⟩⟩) "a" "p").val = "tok" ∧
      (login ⟨"https://cloud.samsonix.com", 443, 1935, 6604, 16604⟩
        (Env.scripted (.ok ⟨"body", none⟩) (.ok ⟨"body", none⟩) ⟨5, "tok"⟩ ⟨0, []⟩ ⟨0, [], []⟩
          ⟨0, [], ⟨0, 0, 0, 0⟩⟩) "a" "p").err = none) :=
  login_result_code ⟨"https://cloud.samsonix.com", 443, 1935, 6604, 16604⟩
    (Env.scripted (.ok ⟨"body", none⟩) (.ok ⟨"body", none⟩) ⟨5, "tok"⟩ ⟨0, []⟩ ⟨0, [], []⟩
      ⟨0, [], ⟨0, 0, 0, 0⟩⟩) "a" "p" ⟨5, "tok"⟩ rfl rfl

/-- C13 on the code: a device-status answer that is transported and decoded with result 7 and
one online device makes getDevices return that device list and no error. -/
theorem getDevices_ignores_result :
    (getDevices ⟨"https://cloud.samsonix.com", 443, 1935, 6604, 16604⟩
      (Env.scripted (.ok ⟨"body", none⟩) (.ok ⟨"body", none⟩) ⟨0, "tok"⟩ ⟨7, [⟨"V1", "D1"⟩]⟩
        ⟨0, [], []⟩ ⟨0, [], ⟨0, 0, 0, 0⟩⟩) "tok").val = [⟨"V1", "D1"⟩] ∧
    (getDevices ⟨"https://cloud.samsonix.com", 443, 1935, 6604, 16604⟩
      (Env.scripted (.ok ⟨"body", none⟩) (.ok ⟨"body", none⟩) ⟨0, "tok"⟩ ⟨7, [⟨"V1", "D1"⟩]⟩
        ⟨0, [], []⟩ ⟨0, [], ⟨0, 0, 0, 0⟩⟩) "tok").err = none := by
  constructor <;> rfl

/-- C14: for getVehicleInfo and for getDeviceAlarms, each taken on its own: when the answer r
of that call is transported and decoded, the call returns r with no error exactly when r.Result
is 0, and otherwise returns nil together with an error whose message is
"vehicle info request failed (result code N)", respectively
"alarm request failed (result code N)", N being r.Result in decimal. -/
theorem result_code_checked (config : AppConfig) (env : Env) (jsession devIDNO : String)
    (toMap : Int) :
    (∀ v : VehicleResponse,
      (httpGetJSON env (Sprintf "%s?jsession=%s"
        [.str (getVehicleInfoURL config), .str jsession])).err = none →
      env.unmarshalVehicle (httpGetJSON env (Sprintf "%s?jsession=%s"
        [.str (getVehicleInfoURL config), .str jsession])).val = .ok v →
      (((getVehicleInfo config env jsession).val = some v ∧
          (getVehicleInfo config env jsession).err = none) ↔ v.Result = 0) ∧
      (v.Result ≠ 0 →
        (getVehicleInfo config env jsession).val = none ∧
        (getVehicleInfo config env jsession).err
          = some ⟨"vehicle info request failed (result code " ++ toString v.Result ++ ")"⟩)) ∧
    (∀ a : AlarmResponse,
      (httpGetJSON env (Sprintf "%s?jsession=%s&DevIDNO=%s&toMap=%d"
        [.str (getAlarmURL config), .str jsession, .str devIDNO, .int toMap])).err = none →
      env.unmarshalAlarm (httpGetJSON env (Sprintf "%s?jsession=%s&DevIDNO=%s&toMap=%d"
        [.str (getAlarmURL config), .str jsession, .str devIDNO, .int toMap])).val = .ok a →
      (((getDeviceAlarms config env jsession devIDNO toMap).val = some a ∧
          (getDeviceAlarms config env jsession devIDNO toMap).err = none) ↔ a.Result = 0) ∧
      (a.Result ≠ 0 →
        (getDeviceAlarms config env jsession devIDNO toMap).val = none ∧
        (getDeviceAlarms config env jsession devIDNO toMap).err
          = some ⟨"alarm request failed (result code " ++ toString a.Result ++ ")"⟩)) := by
  refine ⟨?_, ?_⟩
  · intro v hgetv hdecv
    refine ⟨?_, ?_⟩
    · by_cases h : v.Result = 0
      · simp only [getVehicleInfo, hgetv, hdecv]
        simp [h]
      · simp only [getVehicleInfo, hgetv, hdecv]
        simp [h]
    · intro h
      simp only [getVehicleInfo, hgetv, hdecv]
      simp [h, errorf_vehicle]
  · intro a hgeta hdeca
    refine ⟨?_, ?_⟩
    · by_cases h : a.Result = 0
      · simp only [getDeviceAlarms, hgeta, hdeca]
        simp [h]
      · simp only [getDeviceAlarms, hgeta, hdeca]
        simp [h]
    · intro h
      simp only [getDeviceAlarms, hgeta, hdeca]
      simp [h, errorf_alarm]

/-- Witness for C14.  In the first environment the vehicle answer has result 0 and the alarm
answer has result 3: the vehicle call returns its answer with no error and the alarm call
returns nil with "alarm request failed (result code 3)".  In the second environment no alarm
answer can be decoded and the vehicle answer has result 4: the vehicle call returns nil with
"vehicle info request failed (result code 4)". -/
theorem result_code_checked_witness :
    ((getVehicleInfo ⟨"https://cloud.samsonix.com", 443, 1935, 6604, 16604⟩
        (Env.scripted (.ok ⟨"body", none⟩) (.ok ⟨"body", none⟩) ⟨0, "tok"⟩ ⟨0, []⟩
          ⟨0, [⟨1, "A", 2⟩], []⟩ ⟨3, [], ⟨0, 0, 0, 0⟩⟩) "tok").val = some ⟨0, [⟨1, "A", 2⟩], []⟩ ∧
      (getVehicleInfo ⟨"https://cloud.samsonix.com", 443, 1935, 6604, 16604⟩
        (Env.scripted (.ok ⟨"body", none⟩) (.ok ⟨"body", none⟩) ⟨0, "tok"⟩ ⟨0, []⟩
          ⟨0, [⟨1, "A", 2⟩], []⟩ ⟨3, [], ⟨0, 0, 0, 0⟩⟩) "tok").err = none) ∧
    ((getDeviceAlarms ⟨"https://cloud.samsonix.com", 443, 1935, 6604, 16604⟩
        (Env.scripted (.ok ⟨"body", none⟩) (.ok ⟨"body", none⟩) ⟨0, "tok"⟩ ⟨0, []⟩
          ⟨0, [⟨1, "A", 2⟩], []⟩ ⟨3, [], ⟨0, 0, 0, 0⟩⟩) "tok" "D1" 0).val = none ∧
      (getDeviceAlarms ⟨"https://cloud.samsonix.com", 443, 1935, 6604, 16604⟩
        (Env.scripted (.ok ⟨"body", none⟩) (.ok ⟨"body", none⟩) ⟨0, "tok"⟩ ⟨0, []⟩
          ⟨0, [⟨1, "A", 2⟩], []⟩ ⟨3, [], ⟨0, 0, 0, 0⟩⟩) "tok" "D1" 0).err
        = some ⟨"alarm request failed (result code " ++ toString (3 : Int) ++ ")"⟩) ∧
    ((getVehicleInfo ⟨"https://cloud.samsonix.com", 443, 1935, 6604, 16604⟩
        { Env.scripted (.ok ⟨"body", none⟩) (.ok ⟨"body", none⟩) ⟨0, "tok"⟩ ⟨0, []⟩
            ⟨4, [], []⟩ ⟨0, [], ⟨0, 0, 0, 0⟩⟩ with
          unmarshalAlarm := fun _ => .error ⟨"unexpected end of JSON input"⟩ } "tok").val = none ∧
      (getVehicleInfo ⟨"https://cloud.samsonix.com", 443, 1935, 6604, 16604⟩
        { Env.scripted (.ok ⟨"body", none⟩) (.ok ⟨"body", none⟩) ⟨0, "tok"⟩ ⟨0, []⟩
            ⟨4, [], []⟩ ⟨0, [], ⟨0, 0, 0, 0⟩⟩ with
          unmarshalAlarm := fun _ => .error ⟨"unexpected end of JSON input"⟩ } "tok").err
        = some ⟨"vehicle info request failed (result code " ++ toString (4 : Int) ++ ")"⟩) :=
  ⟨(((result_code_checked ⟨"https://cloud.samsonix.com", 443, 1935, 6604, 16604⟩
      (Env.scripted (.ok ⟨"body", none⟩) (.ok ⟨"body", none⟩) ⟨0, "tok"⟩ ⟨0, []⟩
        ⟨0, [⟨1, "A", 2⟩], []⟩ ⟨3, [], ⟨0, 0, 0, 0⟩⟩) "tok" "D1" 0).1
      ⟨0, [⟨1, "A", 2⟩], []⟩ rfl rfl).1).2 rfl,
    ((result_code_checked ⟨"https://cloud.samsonix.com", 443, 1935, 6604, 16604⟩
      (Env.scripted (.ok ⟨"body", none⟩) (.ok ⟨"body", none⟩) ⟨0, "tok"⟩ ⟨0, []⟩
        ⟨0, [⟨1, "A", 2⟩], []⟩ ⟨3, [], ⟨0, 0, 0, 0⟩⟩) "tok" "D1" 0).2
      ⟨3, [], ⟨0, 0, 0, 0⟩⟩ rfl rfl).2 (by decide),
    ((result_code_checked ⟨"https://cloud.samsonix.com", 443, 1935, 6604, 16604⟩
      { Env.scripted (.ok ⟨"body", none⟩) (.ok ⟨"body", none⟩) ⟨0, "tok"⟩ ⟨0, []⟩
          ⟨4, [], []⟩ ⟨0, [], ⟨0, 0, 0, 0⟩⟩ with
        unmarshalAlarm := fun _ => .error ⟨"unexpected end of JSON input"⟩ } "tok" "D1" 0).1
      ⟨4, [], []⟩ rfl rfl).2 (by decide)⟩

theorem containsChars_iff_occurs (s sub : List Char) :
    strings.containsChars s sub = true ↔ sub <:+: s := by
  induction s with
  | nil =>
    simp only [strings.containsChars, List.infix_nil, List.isEmpty_iff]
  | cons c cs ih =>
    rw [strings.containsChars, Bool.or_eq_true, ih, List.infix_cons_iff,
      List.isPrefixOf_iff_prefix]

theorem contains_iff (s sub : String) :
    strings.Contains s sub = true ↔ ∃ a b : String, s = a ++ sub ++ b := by
  unfold strings.Contains
  rw [containsChars_iff_occurs]
  constructor
  · rintro ⟨a, b, h⟩
    refine ⟨String.mk a, String.mk b, ?_⟩
    apply String.ext
    simp [String.data_append, h]
  · rintro ⟨a, b, h⟩
    refine ⟨a.data, b.data, ?_⟩
    rw [h]
    simp [String.data_append]

theorem foldl_bucket (companies : List Company) (acc : Hierarchy) (p : Int) :
    (companies.foldl
      (fun hierarchy company =>
        hierarchy.set company.PID (hierarchy.get company.PID ++ [company])) acc) p
    = if companies.filter (fun c => decide (c.PID = p)) = [] then acc p
      else some (acc.get p ++ companies.filter (fun c => decide (c.PID = p))) := by
  induction companies generalizing acc with
  | nil => simp
  | cons c cs ih =>
    rw [List.foldl_cons, ih]
    by_cases hc : c.PID = p
    · subst hc
      by_cases hcs : cs.filter (fun x => decide (x.PID = c.PID)) = []
      · simp [hcs, Hierarchy.set, Hierarchy.get]
      · simp [hcs, Hierarchy.set, Hierarchy.get]
    · have hne : ¬ p = c.PID := fun h => hc h.symm
      by_cases hcs : cs.filter (fun x => decide (x.PID = p)) = []
      · simp [hcs, hc, hne, Hierarchy.set, Hierarchy.get]
      · simp [hcs, hc, hne, Hierarchy.set, Hierarchy.get]

theorem buildCompanyHierarchy_apply (companies : List Company) (p : Int) :
    buildCompanyHierarchy companies p
    = if companies.filter (fun c => decide (c.PID = p)) = [] then none
      else some (companies.filter (fun c => decide (c.PID = p))) := by
  unfold buildCompanyHierarchy
  rw [foldl_bucket]
  simp [Hierarchy.get]

/-- C16: buildCompanyHierarchy groups by parent id, keeping the input order: the bucket read at
p is the sub-list of the input companies whose PID is p, in input order; p is a key of the map
exactly when some company has PID p, and the bucket stored under a key is that sub-list; so a
company is in the bucket of p exactly when it is in the input and its PID is p. -/
theorem buildCompanyHierarchy_groups (companies : List Company) (p : Int) :
    (buildCompanyHierarchy companies).get p = companies.filter (fun c => decide (c.PID = p)) ∧
    ((buildCompanyHierarchy companies p).isSome ↔ ∃ c ∈ companies, c.PID = p) ∧
    (∀ bucket, buildCompanyHierarchy companies p = some bucket →
      bucket = companies.filter (fun c => decide (c.PID = p))) ∧
    (∀ c, c ∈ (buildCompanyHierarchy companies).get p ↔ c ∈ companies ∧ c.PID = p) := by
  have hget : (buildCompanyHierarchy companies).get p
      = companies.filter (fun c => decide (c.PID = p)) := by
    unfold Hierarchy.get
    rw [buildCompanyHierarchy_apply]
    by_cases h : companies.filter (fun c => decide (c.PID = p)) = []
    · simp [h]
    · simp [h]
  refine ⟨hget, ?_, ?_, ?_⟩
  · rw [buildCompanyHierarchy_apply]
    by_cases h : companies.filter (fun c => decide (c.PID = p)) = []
    · simp only [h, if_true, Option.isSome_none, Bool.false_eq_true, false_iff]
      rintro ⟨c, hc, hp⟩
      have : c ∈ companies.filter (fun c => decide (c.PID = p)) := by
        simp [List.mem_filter, hc, hp]
      rw [h] at this
      exact absurd this (List.not_mem_nil c)
    · simp only [h, if_false, Option.isSome_some, true_iff]
      obtain ⟨c, hc⟩ := List.exists_mem_of_ne_nil _ h
      rw [List.mem_filter] at hc
      exact ⟨c, hc.1, by simpa using hc.2⟩
  · intro bucket hb
    rw [buildCompanyHierarchy_apply] at hb
    by_cases h : companies.filter (fun c => decide (c.PID = p)) = []
    · simp [h] at hb
    · simp only [h, if_false, Option.some.injEq] at hb
      exact hb.symm
  · intro c
    rw [hget, List.mem_filter]
    simp

theorem sprintf_corner (pre name : String) :
    Sprintf "%s└── %s\n" [.str pre, .str name] = pre ++ "└── " ++ name ++ "\n" := by
  apply String.ext
  simp [Sprintf, Sprintf.go, FmtArg.render, String.data_append]

theorem sprintf_tee (pre name : String) :
    Sprintf "%s├── %s\n" [.str pre, .str name] = pre ++ "├── " ++ name ++ "\n" := by
  apply String.ext
  simp [Sprintf, Sprintf.go, FmtArg.render, String.data_append]

theorem printCompanyTree_succ (fuel : Nat) (builder : String) (hierarchy : Hierarchy)
    (parentID : Int) (pre : String) :
    printCompanyTree (fuel + 1) builder hierarchy parentID pre
    = match hierarchy parentID with
      | none => some builder
      | some children =>
        children.enum.foldlM
          (printChild (fun b p q => printCompanyTree fuel b hierarchy p q) pre children.length)
          builder := by
  rw [printCompanyTree]
  cases hierarchy parentID with
  | none => rfl
  | some children =>
    simp only []
    congr 1
    funext b ic
    have hlast : ((ic.1 : Int) == (children.length : Int) - 1)
        = decide (ic.1 + 1 = children.length) := by
      by_cases h : ic.1 + 1 = children.length
      · have : (ic.1 : Int) = (children.length : Int) - 1 := by omega
        simp [h, this]
      · have : ¬ (ic.1 : Int) = (children.length : Int) - 1 := by omega
        simp [h, this]
    by_cases h : ic.1 + 1 = children.length
    · simp [printChild, hlast, h, connector, childIndent, sprintf_corner]
    · simp [printChild, hlast, h, connector, childIndent, sprintf_tee]

theorem foldlM_builder (call : String → Int → String → Option String) (pre : String) (n : Nat)
    (hcall : ∀ b p q, call b p q = (call "" p q).map (fun o => b ++ o)) :
    ∀ (l : List (Nat × Company)) (b : String),
      l.foldlM (printChild call pre n) b
        = (l.foldlM (printChild call pre n) "").map (fun o => b ++ o) := by
  intro l
  induction l with
  | nil => intro b; simp
  | cons x xs ih =>
    intro b
    simp only [List.foldlM_cons, Option.bind_eq_bind]
    have e1 := hcall (b ++ (pre ++ connector x.1 n ++ x.2.Name ++ "\n")) x.2.ID
      (pre ++ childIndent x.1 n)
    have e2 := hcall ("" ++ (pre ++ connector x.1 n ++ x.2.Name ++ "\n")) x.2.ID
      (pre ++ childIndent x.1 n)
    simp only [printChild]
    rw [e1, e2]
    cases call "" x.2.ID (pre ++ childIndent x.1 n) with
    | none => simp
    | some o =>
      simp only [Option.map_some', Option.some_bind]
      rw [ih (b ++ (pre ++ connector x.1 n ++ x.2.Name ++ "\n") ++ o),
        ih ("" ++ (pre ++ connector x.1 n ++ x.2.Name ++ "\n") ++ o)]
      cases List.foldlM (printChild call pre n) "" xs with
      | none => simp
      | some r => simp [String.append_assoc]

theorem printCompanyTree_builder (fuel : Nat) (hierarchy : Hierarchy) :
    ∀ (builder : String) (parentID : Int) (pre : String),
      printCompanyTree fuel builder hierarchy parentID pre
      = (printCompanyTree fuel "" hierarchy parentID pre).map (fun o => builder ++ o) := by
  induction fuel with
  | zero => intro builder parentID pre; simp [printCompanyTree]
  | succ f ih =>
    intro builder parentID pre
    rw [printCompanyTree_succ, printCompanyTree_succ]
    cases hierarchy parentID with
    | none => simp
    | some children =>
      exact foldlM_builder (fun b p q => printCompanyTree f b hierarchy p q) pre
        children.length ih children.enum builder

theorem foldlM_mono (c1 c2 : String → Int → String → Option String) (pre : String) (n : Nat)
    (h : ∀ b p q o, c1 b p q = some o → c2 b p q = some o) :
    ∀ (l : List (Nat × Company)) (b o : String),
      l.foldlM (printChild c1 pre n) b = some o → l.foldlM (printChild c2 pre n) b = some o := by
  intro l
  induction l with
  | nil => intro b o hb; simpa using hb
  | cons x xs ih =>
    intro b o hb
    simp only [List.foldlM_cons, Option.bind_eq_bind, Option.bind_eq_some] at hb ⊢
    obtain ⟨b', h1, h2⟩ := hb
    exact ⟨b', h _ _ _ _ h1, ih _ _ h2⟩

theorem printCompanyTree_mono (hierarchy : Hierarchy) (fuel : Nat) :
    ∀ (builder : String) (parentID : Int) (pre out : String),
      printCompanyTree fuel builder hierarchy parentID pre = some out →
      printCompanyTree (fuel + 1) builder hierarchy parentID pre = some out := by
  induction fuel with
  | zero => intro builder parentID pre out h; simp [printCompanyTree] at h
  | succ f ih =>
    intro builder parentID pre out h
    rw [printCompanyTree_succ] at h ⊢
    cases hp : hierarchy parentID with
    | none => rw [hp] at h; exact h
    | some children =>
      rw [hp] at h
      exact foldlM_mono (fun b p q => printCompanyTree f b hierarchy p q)
        (fun b p q => printCompanyTree (f + 1) b hierarchy p q) pre children.length
        (fun b p q o hx => ih b p q o hx) _ _ _ h

theorem printCompanyTree_mono_add (hierarchy : Hierarchy) (fuel k : Nat) (builder : String)
    (parentID : Int) (pre out : String)
    (h : printCompanyTree fuel builder hierarchy parentID pre = some out) :
    printCompanyTree (fuel + k) builder hierarchy parentID pre = some out := by
  induction k with
  | zero => exact h
  | succ k ih => exact printCompanyTree_mono hierarchy (fuel + k) _ _ _ _ ih

theorem foldlM_outputs (call : String → Int → String → Option String) (pre : String) (n : Nat)
    (hcall : ∀ b p q, call b p q = (call "" p q).map (fun o => b ++ o)) :
    ∀ (l : List (Nat × Company)) (b out : String),
      l.foldlM (printChild call pre n) b = some out →
      ∃ outs : List String,
        List.Forall₂
          (fun (ic : Nat × Company) o => call "" ic.2.ID (pre ++ childIndent ic.1 n) = some o)
          l outs ∧
        out = b ++ concatStrings (List.zipWith
          (fun (ic : Nat × Company) o => pre ++ connector ic.1 n ++ ic.2.Name ++ "\n" ++ o)
          l outs) := by
  intro l
  induction l with
  | nil =>
    intro b out h
    refine ⟨[], List.Forall₂.nil, ?_⟩
    simp only [List.foldlM_nil] at h
    have : b = out := by simpa using h
    simp [this, concatStrings]
  | cons x xs ih =>
    intro b out h
    simp only [List.foldlM_cons, Option.bind_eq_bind, Option.bind_eq_some] at h
    obtain ⟨b', h1, h2⟩ := h
    simp only [printChild] at h1
    rw [hcall, Option.map_eq_some'] at h1
    obtain ⟨o, ho, rfl⟩ := h1
    obtain ⟨outs, hf, rfl⟩ := ih _ _ h2
    refine ⟨o :: outs, List.Forall₂.cons ho hf, ?_⟩
    simp [concatStrings, String.append_assoc]

theorem rendersTo_unique (hierarchy : Hierarchy) (parentID : Int) (pre out : String)
    (h : RendersTo hierarchy parentID pre out) (fuel : Nat) (builder out' : String)
    (h' : printCompanyTree fuel builder hierarchy parentID pre = some out') :
    out' = builder ++ out := by
  obtain ⟨f0, h0⟩ := h
  rw [printCompanyTree_builder] at h'
  simp only [Option.map_eq_some'] at h'
  obtain ⟨o, ho, rfl⟩ := h'
  have h1 := printCompanyTree_mono_add hierarchy f0 fuel _ _ _ _ h0
  have h2 := printCompanyTree_mono_add hierarchy fuel f0 _ _ _ _ ho
  rw [Nat.add_comm] at h2
  rw [h1] at h2
  rw [Option.some.inj h2]

theorem forall₂_imp_rendersTo (hierarchy : Hierarchy) (fuel : Nat) (pre : String) (n : Nat)
    (l : List (Nat × Company)) (outs : List String)
    (h : List.Forall₂
      (fun (ic : Nat × Company) o =>
        (fun b p q => printCompanyTree fuel b hierarchy p q) "" ic.2.ID
          (pre ++ childIndent ic.1 n) = some o)
      l outs) :
    List.Forall₂
      (fun (ic : Nat × Company) o =>
        RendersTo hierarchy ic.2.ID (pre ++ childIndent ic.1 n) o)
      l outs := by
  induction h with
  | nil => exact List.Forall₂.nil
  | cons hx _ ih => exact List.Forall₂.cons ⟨fuel, hx⟩ ih

/-- C17: printCompanyTree renders depth-first in pre-order.  Whenever the printer returns for
(parentID, pre), its output is determined (any returning call appends that same text to its
builder); it is empty when parentID has no bucket; and when parentID has the bucket
c_0 .. c_(n-1), it is the concatenation over i of the line pre + connector + c_i.Name + newline
followed by the rendering of (c_i.ID, pre + indent), the connector being "└── " and the indent
four spaces for the last child, "├── " and "│   " for the others.  The forest built from
[(id 1, parent 2, "A"), (id 3, parent 1, "B")], rendered at root 2 with the empty prefix, gives
the two lines "└── A" and "    └── B". -/
theorem printCompanyTree_preorder :
    (∀ (hierarchy : Hierarchy) (parentID : Int) (pre out : String),
      RendersTo hierarchy parentID pre out →
      (∀ (fuel : Nat) (builder out' : String),
        printCompanyTree fuel builder hierarchy parentID pre = some out' →
        out' = builder ++ out) ∧
      (hierarchy parentID = none → out = "") ∧
      (∀ children, hierarchy parentID = some children →
        ∃ outs : List String,
          List.Forall₂
            (fun (ic : Nat × Company) o =>
              RendersTo hierarchy ic.2.ID (pre ++ childIndent ic.1 children.length) o)
            children.enum outs ∧
          out = concatStrings (List.zipWith
            (fun (ic : Nat × Company) o =>
              pre ++ connector ic.1 children.length ++ ic.2.Name ++ "\n" ++ o)
            children.enum outs))) ∧
    printCompanyTree 3 "" (buildCompanyHierarchy [⟨1, "A", 2⟩, ⟨3, "B", 1⟩]) 2 ""
      = some "└── A\n    └── B\n" := by
  refine ⟨?_, by decide⟩
  intro hierarchy parentID pre out h
  refine ⟨rendersTo_unique hierarchy parentID pre out h, ?_, ?_⟩
  · intro hnone
    obtain ⟨fuel, hf⟩ := h
    cases fuel with
    | zero => simp [printCompanyTree] at hf
    | succ f =>
      rw [printCompanyTree_succ, hnone] at hf
      exact (Option.some.inj hf).symm
  · intro children hsome
    obtain ⟨fuel, hf⟩ := h
    cases fuel with
    | zero => simp [printCompanyTree] at hf
    | succ f =>
      rw [printCompanyTree_succ, hsome] at hf
      obtain ⟨outs, hall, hout⟩ := foldlM_outputs
        (fun b p q => printCompanyTree f b hierarchy p q) pre children.length
        (printCompanyTree_builder f hierarchy) children.enum "" out hf
      refine ⟨outs, forall₂_imp_rendersTo hierarchy f pre children.length _ _ hall, ?_⟩
      rw [hout, String.empty_append]

/-- Witness for C17: the rendering of the two-company forest at root 2 terminates, and its
output is the line of company A followed by the rendering below A. -/
theorem printCompanyTree_preorder_witness :
    ∃ outs : List String,
      List.Forall₂
        (fun (ic : Nat × Company) o =>
          RendersTo (buildCompanyHierarchy [⟨1, "A", 2⟩, ⟨3, "B", 1⟩]) ic.2.ID
            ("" ++ childIndent ic.1 [(⟨1, "A", 2⟩ : Company)].length) o)
        [(⟨1, "A", 2⟩ : Company)].enum outs ∧
      "└── A\n    └── B\n" = concatStrings (List.zipWith
        (fun (ic : Nat × Company) o =>
          "" ++ connector ic.1 [(⟨1, "A", 2⟩ : Company)].length ++ ic.2.Name ++ "\n" ++ o)
        [(⟨1, "A", 2⟩ : Company)].enum outs) :=
  (printCompanyTree_preorder.1 (buildCompanyHierarchy [⟨1, "A", 2⟩, ⟨3, "B", 1⟩]) 2 ""
    "└── A\n    └── B\n"
    (show ∃ fuel, printCompanyTree fuel "" (buildCompanyHierarchy [⟨1, "A", 2⟩, ⟨3, "B", 1⟩])
        2 "" = some "└── A\n    └── B\n" from ⟨3, by decide⟩)).2.2
    [⟨1, "A", 2⟩] (by decide)

theorem foldlM_none (call : String → Int → String → Option String) (pre : String) (n : Nat)
    (x : Nat × Company) (hx : ∀ b q, call b x.2.ID q = none) :
    ∀ (l : List (Nat × Company)) (b : String), x ∈ l →
      l.foldlM (printChild call pre n) b = none := by
  intro l
  induction l with
  | nil => intro b h; exact absurd h (List.not_mem_nil x)
  | cons y ys ih =>
    intro b h
    simp only [List.foldlM_cons, Option.bind_eq_bind]
    rcases List.mem_cons.1 h with h | h
    · subst h
      simp [printChild, hx]
    · cases printChild call pre n b y with
      | none => rfl
      | some b' => exact ih b' h

theorem mem_enum_of_mem (cs : List Company) (c : Company) (h : c ∈ cs) :
    ∃ i, (i, c) ∈ cs.enum := by
  obtain ⟨i, hi, rfl⟩ := List.getElem_of_mem h
  exact ⟨i, by simp [List.mk_mem_enum_iff_getElem?, hi]⟩

theorem printCompanyTree_none_of_child (fuel : Nat) (companies : List Company) (p q : Int)
    (hcall : ChildCall companies p q)
    (hq : ∀ b pre, printCompanyTree fuel b (buildCompanyHierarchy companies) q pre = none) :
    ∀ b pre, printCompanyTree (fuel + 1) b (buildCompanyHierarchy companies) p pre = none := by
  intro b pre
  obtain ⟨c, hc, hp, hid⟩ := hcall
  have hmem : c ∈ companies.filter (fun x => decide (x.PID = p)) := by
    simp [List.mem_filter, hc, hp]
  have hne : companies.filter (fun x => decide (x.PID = p)) ≠ [] :=
    List.ne_nil_of_mem hmem
  rw [printCompanyTree_succ, buildCompanyHierarchy_apply]
  simp only [hne, if_false]
  obtain ⟨i, hi⟩ := mem_enum_of_mem _ c hmem
  exact foldlM_none (fun b p q => printCompanyTree fuel b (buildCompanyHierarchy companies) p q)
    pre _ (i, c) (fun b' q' => by simpa [hid] using hq b' q') _ b hi

theorem reaches_cycle_step (companies : List Company) (r : Int)
    (h : ∃ q, Relation.ReflTransGen (ChildCall companies) r q ∧
      Relation.TransGen (ChildCall companies) q q) :
    ∃ r', ChildCall companies r r' ∧
      ∃ q, Relation.ReflTransGen (ChildCall companies) r' q ∧
        Relation.TransGen (ChildCall companies) q q := by
  obtain ⟨q, hrq, hqq⟩ := h
  rcases Relation.ReflTransGen.cases_head hrq with heq | ⟨r', hstep, hrest⟩
  · subst heq
    rcases Relation.TransGen.head'_iff.1 hqq with ⟨r', hstep, hrest⟩
    exact ⟨r', hstep, r, hrest, hqq⟩
  · exact ⟨r', hstep, q, hrest, hqq⟩

theorem printCompanyTree_diverges (companies : List Company) (fuel : Nat) :
    ∀ (r : Int),
      (∃ q, Relation.ReflTransGen (ChildCall companies) r q ∧
        Relation.TransGen (ChildCall companies) q q) →
      ∀ b pre, printCompanyTree fuel b (buildCompanyHierarchy companies) r pre = none := by
  induction fuel with
  | zero => intro r _ b pre; rfl
  | succ f ih =>
    intro r h
    obtain ⟨r', hstep, h'⟩ := reaches_cycle_step companies r h
    exact printCompanyTree_none_of_child f companies r r' hstep (ih r' h')

/-- C18 (as amended): the printer has no cycle guard: for every list of companies and every
root from which a parent-id cycle can be reached through the child relation (some parent id q
is reached from the root, and q is reached again from q), printCompanyTree on the forest built
from the list does not return from that root, whatever the depth of recursion allowed; the
program's root is 2. -/
theorem printCompanyTree_cycle_diverges (companies : List Company) (root : Int)
    (h : ∃ q, Relation.ReflTransGen (ChildCall companies) root q ∧
      Relation.TransGen (ChildCall companies) q q)
    (fuel : Nat) (builder pre : String) :
    printCompanyTree fuel builder (buildCompanyHierarchy companies) root pre = none :=
  printCompanyTree_diverges companies fuel root h builder pre

/-- Witness for C18: the companies 1 (parent 2), 3 (parent 1) and 1 again (parent 3) form the
cycle 1, 3, 1 below the root 2. -/
theorem printCompanyTree_cycle_diverges_witness :
    printCompanyTree 1000 "" (buildCompanyHierarchy [⟨1, "A", 2⟩, ⟨3, "B", 1⟩, ⟨1, "C", 3⟩]) 2 ""
      = none :=
  printCompanyTree_cycle_diverges [⟨1, "A", 2⟩, ⟨3, "B", 1⟩, ⟨1, "C", 3⟩] 2
    ⟨1, Relation.ReflTransGen.single ⟨⟨1, "A", 2⟩, by simp, rfl, rfl⟩,
      Relation.TransGen.head ⟨⟨3, "B", 1⟩, by simp, rfl, rfl⟩
        (Relation.TransGen.single ⟨⟨1, "C", 3⟩, by simp, rfl, rfl⟩)⟩
    1000 "" ""

/-- C18 fails as stated: the single company 5 whose parent is 5 is a parent-id cycle, yet the
rendering from root 2 returns at once, with nothing written, because 2 has no bucket. -/
theorem printCompanyTree_cycle_counterexample :
    Relation.TransGen (ChildCall [⟨5, "X", 5⟩]) 5 5 ∧
    printCompanyTree 1 "" (buildCompanyHierarchy [⟨5, "X", 5⟩]) 2 "" = some "" :=
  ⟨Relation.TransGen.single ⟨⟨5, "X", 5⟩, by simp, rfl, rfl⟩, by decide⟩

/-! ## Alarm auto-refresh -/

theorem refreshTick_of_fetch_error (config : AppConfig) (t : TickInput) (dev : String)
    (e : GoError) (hdev : tickDeviceID t = some dev)
    (hfetch : (getDeviceAlarms config t.env t.jsessionCache dev (tickToMap t)).err = some e) :
    (refreshTick config t).1 = none := by
  simp [refreshTick, hdev, hfetch]

theorem step_tick_skip (config : AppConfig) (s : PollerState) (t : TickInput)
    (halive : s.loopAlive = true) (harmed : s.tickerArmed = true)
    (hskip : (refreshTick config t).1 = none) :
    s.step config (.tick t) = [{ s with console := s.console ++ (refreshTick config t).2 }] := by
  unfold PollerState.step
  rcases hr : refreshTick config t with ⟨text, log⟩
  rw [hr] at hskip
  simp only at hskip
  subst hskip
  simp [halive, harmed, hr]

theorem step_tick_show (config : AppConfig) (s : PollerState) (t : TickInput) (text : String)
    (halive : s.loopAlive = true) (harmed : s.tickerArmed = true)
    (hshow : (refreshTick config t).1 = some text) :
    s.step config (.tick t)
      = [{ s with
            output := text, setTextCalls := s.setTextCalls + 1,
            console := s.console ++ (refreshTick config t).2 }] := by
  unfold PollerState.step
  rcases hr : refreshTick config t with ⟨text', log⟩
  rw [hr] at hshow
  simp only at hshow
  subst hshow
  simp [halive, harmed, hr]

/-- C19: a tick whose alarm fetch fails, taken while the loop is alive and the ticker armed,
has exactly one successor state; in it the poller is as before (Running if it was Running, the
loop alive, the ticker armed), the output text and the number of sink invocations are
unchanged, and no dialog is shown: nothing but console lines is added.  A later tick whose
fetch succeeds is still handled: it sets the output and is the next sink invocation. -/
theorem failed_tick_is_skipped (config : AppConfig) (s : PollerState) (t : TickInput)
    (dev : String) (e : GoError)
    (halive : s.loopAlive = true) (harmed : s.tickerArmed = true)
    (hdev : tickDeviceID t = some dev)
    (hfetch : (getDeviceAlarms config t.env t.jsessionCache dev (tickToMap t)).err = some e) :
    ∃ s' : PollerState,
      s.step config (.tick t) = [s'] ∧
      (s.Running → s'.Running) ∧
      s'.refreshTicker = s.refreshTicker ∧ s'.loopAlive = true ∧ s'.tickerArmed = true ∧
      s'.output = s.output ∧ s'.setTextCalls = s.setTextCalls ∧
      s'.notices = s.notices ∧ s'.btnText = s.btnText ∧ s'.confirmOpen = s.confirmOpen ∧
      (∀ (t2 : TickInput) (text : String), (refreshTick config t2).1 = some text →
        ∃ s'' : PollerState,
          s'.step config (.tick t2) = [s''] ∧
          s''.output = text ∧ s''.setTextCalls = s.setTextCalls + 1) := by
  have hskip := refreshTick_of_fetch_error config t dev e hdev hfetch
  refine ⟨{ s with console := s.console ++ (refreshTick config t).2 },
    step_tick_skip config s t halive harmed hskip, ?_, rfl, halive, harmed, rfl, rfl, rfl, rfl,
    rfl, ?_⟩
  · intro h
    exact h
  · intro t2 text htext
    exact ⟨_, step_tick_show config _ t2 text halive harmed htext, rfl, rfl⟩

/-- Witness for C19: after a start, a tick whose request fails with a timeout. -/
theorem failed_tick_is_skipped_witness :
    ∃ s' : PollerState,
      PollerState.step ⟨"https://cloud.samsonix.com", 443, 1935, 6604, 16604⟩
        { PollerState.init with refreshTicker := true, loopAlive := true, tickerArmed := true }
        (.tick (TickInput.sample (Env.scripted (.error ⟨"timeout"⟩) (.error ⟨"timeout"⟩)
          ⟨0, "tok"⟩ ⟨0, []⟩ ⟨0, [], []⟩ ⟨0, [], ⟨0, 0, 0, 0⟩⟩))) = [s'] ∧
      s'.output = "" ∧ s'.setTextCalls = 0 ∧ s'.loopAlive = true := by
  obtain ⟨s', h1, _, _, h4, _, h6, h7, _⟩ :=
    failed_tick_is_skipped ⟨"https://cloud.samsonix.com", 443, 1935, 6604, 16604⟩
      { PollerState.init with refreshTicker := true, loopAlive := true, tickerArmed := true }
      (TickInput.sample (Env.scripted (.error ⟨"timeout"⟩) (.error ⟨"timeout"⟩)
        ⟨0, "tok"⟩ ⟨0, []⟩ ⟨0, [], []⟩ ⟨0, [], ⟨0, 0, 0, 0⟩⟩))
      "" ⟨"timeout"⟩ rfl rfl rfl rfl
  exact ⟨s', h1, h6, h7, h4⟩

/-- C20 on the code.  The sink is invoked only by a tick taken in state Running: in every
state in which the ticker variable is set exactly when the loop is alive (which every step
keeps), a step that changes the number of sink invocations is a tick taken in state Running.
From an idle state with no dialog open, the trace start (tap, then confirm), then stop (tap)
with no tick in between leads to two states, one for each order in which the loop reads the
ticker variable and the handler clears it.  In both the sink has not been invoked, the output is
unchanged, the ticker variable is nil, the loop has returned and a later tick changes nothing.
In the first the ticker is stopped and the state is Idle; in the second, where the handler
clears the variable before the loop reads it, the ticker is still armed and the state is not
Idle. -/
theorem start_stop_leaves_ticker_armed (config : AppConfig) (s0 : PollerState)
    (hidle : s0.Idle) (hclosed : s0.confirmOpen = false) :
    (∀ (s s' : PollerState) (ev : PollerEvent), s.refreshTicker = s.loopAlive →
      s' ∈ s.step config ev → s'.refreshTicker = s'.loopAlive) ∧
    (∀ (s s' : PollerState) (ev : PollerEvent), s.refreshTicker = s.loopAlive →
      s' ∈ s.step config ev → s'.setTextCalls ≠ s.setTextCalls →
      (∃ t, ev = .tick t) ∧ s.Running) ∧
    s0.run config [.tap, .confirm true, .tap]
      = [ { s0 with
            btnText := "AUTO REFRESH ALARMS",
            notices := s0.notices ++ ["Auto-refresh stopped"] },
          { s0 with
            tickerArmed := true,
            btnText := "AUTO REFRESH ALARMS",
            notices := s0.notices ++ ["Auto-refresh stopped"] } ] ∧
    (∀ s' ∈ s0.run config [.tap, .confirm true, .tap],
      s'.setTextCalls = s0.setTextCalls ∧ s'.output = s0.output ∧
      s'.refreshTicker = false ∧ s'.loopAlive = false ∧
      ∀ (t : TickInput), ∀ s'' ∈ s'.step config (.tick t), s'' = s') ∧
    PollerState.Idle { s0 with
      btnText := "AUTO REFRESH ALARMS",
      notices := s0.notices ++ ["Auto-refresh stopped"] } ∧
    ¬ PollerState.Idle { s0 with
      tickerArmed := true,
      btnText := "AUTO REFRESH ALARMS",
      notices := s0.notices ++ ["Auto-refresh stopped"] } := by
  obtain ⟨hrt, hla, hta⟩ := hidle
  have hrun : s0.run config [.tap, .confirm true, .tap]
      = [ { s0 with
            btnText := "AUTO REFRESH ALARMS",
            notices := s0.notices ++ ["Auto-refresh stopped"] },
          { s0 with
            tickerArmed := true,
            btnText := "AUTO REFRESH ALARMS",
            notices := s0.notices ++ ["Auto-refresh stopped"] } ] := by
    cases s0
    simp only at hrt hla hta hclosed
    subst hrt hla hta hclosed
    simp [PollerState.run, PollerState.step]
  refine ⟨?_, ?_, hrun, ?_, ⟨hrt, hla, hta⟩, ?_⟩
  · intro s s' ev hinv hstep
    cases ev with
    | tap =>
      simp only [PollerState.step] at hstep
      split_ifs at hstep with h1 h2 h3 <;> simp at hstep
      · rcases hstep with rfl | rfl <;> rfl
      · subst hstep
        exact hinv
    | confirm start =>
      simp only [PollerState.step] at hstep
      split_ifs at hstep with h1 h2 <;> simp at hstep
      · subst hstep; exact hinv
      · subst hstep; rfl
    | tick t =>
      simp only [PollerState.step] at hstep
      split_ifs at hstep with h1 h2
      · simp at hstep
      · simp at hstep; subst hstep; exact hinv
      · rcases hr : refreshTick config t with ⟨text, log⟩
        rw [hr] at hstep
        cases text <;> simp at hstep <;> subst hstep <;> exact hinv
  · intro s s' ev hinv hstep hne
    cases ev with
    | tap =>
      exfalso
      simp only [PollerState.step] at hstep
      split_ifs at hstep with h1 h2 h3 <;> simp at hstep
      · rcases hstep with rfl | rfl <;> exact hne rfl
      · subst hstep
        exact hne rfl
    | confirm start =>
      exfalso
      simp only [PollerState.step] at hstep
      split_ifs at hstep with h1 h2 <;> simp at hstep
      · subst hstep; exact hne rfl
      · subst hstep; exact hne rfl
    | tick t =>
      refine ⟨⟨t, rfl⟩, ?_⟩
      simp only [PollerState.step] at hstep
      split_ifs at hstep with h1 h2
      · simp at hstep
      · simp at hstep; subst hstep; exact absurd rfl hne
      · have halive : s.loopAlive = true := by simpa using h2
        exact ⟨hinv.trans halive, halive⟩
  · intro s' hs'
    rw [hrun] at hs'
    simp only [List.mem_cons, List.mem_singleton, List.not_mem_nil, or_false] at hs'
    rcases hs' with rfl | rfl
    · refine ⟨rfl, rfl, hrt, hla, ?_⟩
      intro t s'' hs''
      simp [PollerState.step, hta] at hs''
    · refine ⟨rfl, rfl, hrt, hla, ?_⟩
      intro t s'' hs''
      simp [PollerState.step, hla] at hs''
      rw [hs'', hla]
  · intro h
    exact absurd h.2.2 (by simp)

/-- C20 at the failing input: from the state at start-up, the trace tap, confirm, tap leads,
when the handler clears the ticker variable before the loop reads it, to a state in which the
sink has not been invoked and the ticker is still armed, so that the state is not Idle. -/
theorem start_stop_leaves_ticker_armed_witness :
    ∃ s' ∈ PollerState.init.run ⟨"https://cloud.samsonix.com", 443, 1935, 6604, 16604⟩
        [.tap, .confirm true, .tap],
      s'.setTextCalls = 0 ∧ s'.output = "" ∧ s'.refreshTicker = false ∧ s'.loopAlive = false ∧
      s'.tickerArmed = true ∧ ¬ s'.Idle := by
  have h := start_stop_leaves_ticker_armed
    ⟨"https://cloud.samsonix.com", 443, 1935, 6604, 16604⟩ PollerState.init ⟨rfl, rfl, rfl⟩ rfl
  refine ⟨{ PollerState.init with
      tickerArmed := true,
      btnText := "AUTO REFRESH ALARMS",
      notices := PollerState.init.notices ++ ["Auto-refresh stopped"] }, ?_, rfl, rfl, rfl, rfl,
    rfl, h.2.2.2.2.2⟩
  rw [h.2.2.1]
  simp

/-! ## Status summary -/

theorem foldl_appendIf (table : List (Bool × String)) :
    ∀ init : List String,
      table.foldl (fun acc p => if p.1 then acc ++ [p.2] else acc) init
        = init ++ setLabels table := by
  induction table with
  | nil => intro init; simp [setLabels]
  | cons p ps ih =>
    intro init
    rw [List.foldl_cons, ih]
    cases hp : p.1 <;> simp [setLabels, hp]

theorem sprintf_alarms (text : String) : Sprintf "ALARMS: %s" [.str text] = "ALARMS: " ++ text := by
  apply String.ext
  simp [Sprintf, Sprintf.go, FmtArg.render, String.data_append]

theorem setLabels_eq_nil (table : List (Bool × String)) :
    setLabels table = [] ↔ table.any (fun p => p.1) = false := by
  induction table with
  | nil => simp [setLabels]
  | cons p ps ih =>
    cases hp : p.1
    · simp [setLabels, hp]
    · simp [setLabels, hp]

theorem getStatusDescription_eq (status : EquipmentStatus) :
    getStatusDescription status
    = strings.Join
        (setLabels (statusTable status)
          ++ (if (alarmTable status).any (fun p => p.1) then
                ["ALARMS: " ++ strings.Join (setLabels (alarmTable status)) ", "]
              else []))
        ", " := by
  have hd := foldl_appendIf (statusTable status) []
  have ha := foldl_appendIf (alarmTable status) []
  rw [List.nil_append] at hd ha
  show strings.Join
      (if ((alarmTable status).foldl (fun acc p => if p.1 then acc ++ [p.2] else acc) []).length
          > 0 then
        (statusTable status).foldl (fun acc p => if p.1 then acc ++ [p.2] else acc) []
          ++ [Sprintf "ALARMS: %s"
            [.str (strings.Join
              ((alarmTable status).foldl (fun acc p => if p.1 then acc ++ [p.2] else acc) [])
              ", ")]]
      else (statusTable status).foldl (fun acc p => if p.1 then acc ++ [p.2] else acc) [])
      ", " = _
  rw [hd, ha, sprintf_alarms]
  cases h : (alarmTable status).any (fun p => p.1) with
  | true =>
    have hne : setLabels (alarmTable status) ≠ [] := by
      intro h0
      rw [setLabels_eq_nil, h] at h0
      exact Bool.noConfusion h0
    have hlen : (setLabels (alarmTable status)).length > 0 := List.length_pos.2 hne
    rw [if_pos hlen, if_pos rfl]
  | false =>
    have hnil : setLabels (alarmTable status) = [] := (setLabels_eq_nil _).2 h
    rw [hnil]
    simp

/-- C21: getStatusDescription renders a comma-joined list with the alarms under "ALARMS:".
For every status the result is the ", "-join of the labels of the set flags among GPSValid
"GPS Valid", ACCStatus "ACC On", LeftTurn "Left Turn", RightTurn "Right Turn", QuiescentState
"Quiescent", OverspeedState "Overspeeding", BatteryStatus "Battery Low", NightState "Night
Mode", DoorOpen "Door Open", in that order, followed, exactly when some alarm of the summary is
active, by the one item "ALARMS: " + the ", "-join of the labels of the active alarms; it is
the empty string when none of these flags and alarms is set; and for
ParseEquipmentStatus(3, 0, 0, 8) it is "GPS Valid, ACC On, ALARMS: Emergency". -/
theorem getStatusDescription_format :
    (∀ status : EquipmentStatus,
      getStatusDescription status
      = strings.Join
          (setLabels
              [(status.GPSValid, "GPS Valid"), (status.ACCStatus, "ACC On"),
                (status.LeftTurn, "Left Turn"), (status.RightTurn, "Right Turn"),
                (status.QuiescentState, "Quiescent"), (status.OverspeedState, "Overspeeding"),
                (status.BatteryStatus, "Battery Low"), (status.NightState, "Night Mode"),
                (status.DoorOpen, "Door Open")]
            ++ (if (alarmTable status).any (fun p => p.1) then
                  ["ALARMS: " ++ strings.Join (setLabels (alarmTable status)) ", "]
                else []))
          ", ") ∧
    (∀ status : EquipmentStatus,
      (statusTable status ++ alarmTable status).any (fun p => p.1) = false →
      getStatusDescription status = "") ∧
    getStatusDescription (ParseEquipmentStatus 3 0 0 8) = "GPS Valid, ACC On, ALARMS: Emergency" := by
  refine ⟨fun status => getStatusDescription_eq status, ?_, by decide⟩
  intro status h
  rw [getStatusDescription_eq]
  rw [List.any_append, Bool.or_eq_false_iff] at h
  rw [(setLabels_eq_nil _).2 h.1, h.2]
  rfl

/-- Witness for C21: no flag is set in the status decoded from four zero words. -/
theorem getStatusDescription_format_witness :
    getStatusDescription (ParseEquipmentStatus 0 0 0 0) = "" :=
  getStatusDescription_format.2.1 (ParseEquipmentStatus 0 0 0 0) (by decide)

theorem mem_setLabels (table : List (Bool × String)) (p : Bool × String) (hp : p ∈ table)
    (hset : p.1 = true) : p.2 ∈ setLabels table := by
  unfold setLabels
  exact List.mem_map.2 ⟨p, List.mem_filter.2 ⟨hp, hset⟩, rfl⟩

/-- C22 (as amended): the summary includes all active alarms among the seven it reads,
EmergencyAlarm "Emergency", AreaOverspeedAlarm "Area Overspeed", FatigueDrivingReport "Fatigue
Driving", DangerousDrivingAlarm "Dangerous Driving", VehicleTheftAlarm "Vehicle Theft",
IllegalIgnitionAlarm "Illegal Ignition" and CollisionRolloverAlarm "Collision/Rollover": when
one of them is set, the last item of the result is "ALARMS: " + the ", "-join of the labels of
the active ones, its label among them.  The fourteen platform alarm flags are not read: the
summary is the same whatever their values. -/
theorem summary_alarms (status : EquipmentStatus) :
    (∀ p ∈ [(status.EmergencyAlarm, "Emergency"), (status.AreaOverspeedAlarm, "Area Overspeed"),
          (status.FatigueDrivingReport, "Fatigue Driving"),
          (status.DangerousDrivingAlarm, "Dangerous Driving"),
          (status.VehicleTheftAlarm, "Vehicle Theft"),
          (status.IllegalIgnitionAlarm, "Illegal Ignition"),
          (status.CollisionRolloverAlarm, "Collision/Rollover")],
      p.1 = true →
      p.2 ∈ setLabels (alarmTable status) ∧
      ∃ items : List String,
        getStatusDescription status
          = strings.Join
              (items ++ ["ALARMS: " ++ strings.Join (setLabels (alarmTable status)) ", "])
              ", ") ∧
    (∀ b1 b2 b3 b4 b5 b6 b7 c1 c2 c3 c4 c5 c6 c7 : Bool,
      getStatusDescription
        { status with
          AreaOverspeedPlatform := b1, AreaOverspeedPlatform2 := b2, IntoAreaAlarm := b3,
          LineOffset := b4, TimePeriodOverspeed := b5, TimePeriodLowSpeed := b6,
          FatigueDriving := b7, OvertimeStop := c1, KeyPointNotReachedAlarm := c2,
          LineOverspeedAlarm := c3, LineLowSpeedAlarm := c4, RoadOverspeedAlarm := c5,
          OutOfAreaAlarmPlatform := c6, KeyPointNotLeaveAlarm := c7 }
      = getStatusDescription status) := by
  constructor
  · intro p hp hset
    have hany : (alarmTable status).any (fun p => p.1) = true :=
      List.any_eq_true.2 ⟨p, hp, hset⟩
    refine ⟨mem_setLabels _ p hp hset, setLabels (statusTable status), ?_⟩
    rw [getStatusDescription_eq, if_pos hany]
  · intro b1 b2 b3 b4 b5 b6 b7 c1 c2 c3 c4 c5 c6 c7
    rfl

/-- Witness for C22: in the status decoded from (0, 0, 0, 8) the emergency alarm is set. -/
theorem summary_alarms_witness :
    "Emergency" ∈ setLabels (alarmTable (ParseEquipmentStatus 0 0 0 8)) ∧
    ∃ items : List String,
      getStatusDescription (ParseEquipmentStatus 0 0 0 8)
        = strings.Join
            (items ++ ["ALARMS: " ++ strings.Join
              (setLabels (alarmTable (ParseEquipmentStatus 0 0 0 8))) ", "])
            ", " :=
  (summary_alarms (ParseEquipmentStatus 0 0 0 8)).1
    ((ParseEquipmentStatus 0 0 0 8).EmergencyAlarm, "Emergency") (List.mem_cons_self _ _)
    (by decide)

/-- C22 fails as stated: in the status decoded from (0, 0x80000000, 0, 0) the platform alarm
FatigueDriving is set, and the summary is the empty string: it has no "ALARMS:" item. -/
theorem summary_platform_counterexample :
    (ParseEquipmentStatus 0 0x80000000 0 0).FatigueDriving = true ∧
    getStatusDescription (ParseEquipmentStatus 0 0x80000000 0 0) = "" ∧
    strings.Contains (getStatusDescription (ParseEquipmentStatus 0 0x80000000 0 0)) "ALARMS:"
      = false := by
  decide

/-! ## Termination of the tree printer -/

theorem reachableCycle_iff (companies : List Company) (root : Int) :
    ReachableCycle companies root ↔
      ∃ q, Relation.ReflTransGen (ChildCall companies) root q ∧
        Relation.TransGen (ChildCall companies) q q := by
  constructor
  · rintro ⟨c, hc, hr, hcyc⟩
    exact ⟨c.PID, hr, Relation.TransGen.head' ⟨c, hc, rfl, rfl⟩ hcyc⟩
  · rintro ⟨q, hr, hcyc⟩
    obtain ⟨q1, ⟨c, hc, hp, hid⟩, hrest⟩ := Relation.TransGen.head'_iff.1 hcyc
    refine ⟨c, hc, ?_, ?_⟩
    · rw [hp]; exact hr
    · rw [hp, hid]; exact hrest

theorem foldlM_some (call : String → Int → String → Option String) (pre : String) (n : Nat) :
    ∀ (l : List (Nat × Company)),
      (∀ x ∈ l, ∀ b q, ∃ o, call b x.2.ID q = some o) →
      ∀ b : String, ∃ o, l.foldlM (printChild call pre n) b = some o := by
  intro l
  induction l with
  | nil => intro _ b; exact ⟨b, rfl⟩
  | cons x xs ih =>
    intro h b
    obtain ⟨b', hb'⟩ := h x (List.mem_cons_self _ _)
      (b ++ (pre ++ connector x.1 n ++ x.2.Name ++ "\n")) (pre ++ childIndent x.1 n)
    obtain ⟨o, ho⟩ := ih (fun y hy => h y (List.mem_cons_of_mem _ hy)) b'
    refine ⟨o, ?_⟩
    simp only [List.foldlM_cons, Option.bind_eq_bind, printChild]
    rw [hb']
    exact ho

theorem reached_subset (companies : List Company) (p q : Int)
    (hpq : ChildCall companies p q) (x : Int)
    (hx : Relation.TransGen (ChildCall companies) q x) :
    Relation.TransGen (ChildCall companies) p x :=
  Relation.TransGen.head hpq hx

theorem transGen_mem_ids (companies : List Company) (p x : Int)
    (h : Relation.TransGen (ChildCall companies) p x) : x ∈ companies.map (fun c => c.ID) := by
  have key : ∀ a b, ChildCall companies a b → b ∈ companies.map (fun c => c.ID) := by
    rintro a b ⟨c, hc, _, hid⟩
    exact List.mem_map.2 ⟨c, hc, hid⟩
  cases h with
  | single h1 => exact key _ _ h1
  | tail _ h2 => exact key _ _ h2

theorem reached_finite (companies : List Company) (p : Int) :
    {x | Relation.TransGen (ChildCall companies) p x}.Finite := by
  apply Set.Finite.subset (companies.map (fun c => c.ID)).toFinset.finite_toSet
  intro x hx
  simp only [Finset.mem_coe, List.mem_toFinset]
  exact transGen_mem_ids companies p x hx

theorem reached_ncard_lt (companies : List Company) (p q : Int)
    (hpq : ChildCall companies p q)
    (hq : ¬ Relation.TransGen (ChildCall companies) q q) :
    {x | Relation.TransGen (ChildCall companies) q x}.ncard
      < {x | Relation.TransGen (ChildCall companies) p x}.ncard := by
  apply Set.ncard_lt_ncard _ (reached_finite companies p)
  refine ⟨fun x hx => Relation.TransGen.head hpq hx, ?_⟩
  intro hsub
  exact hq (hsub (Relation.TransGen.single hpq))

theorem printCompanyTree_terminates_aux (companies : List Company) :
    ∀ (n : Nat) (p : Int),
      {x | Relation.TransGen (ChildCall companies) p x}.ncard ≤ n →
      (¬ ∃ q, Relation.ReflTransGen (ChildCall companies) p q ∧
        Relation.TransGen (ChildCall companies) q q) →
      ∀ b pre,
        ∃ o, printCompanyTree (n + 1) b (buildCompanyHierarchy companies) p pre = some o := by
  intro n
  induction n with
  | zero =>
    intro p hcard hno b pre
    rw [printCompanyTree_succ, buildCompanyHierarchy_apply]
    by_cases hne : companies.filter (fun c => decide (c.PID = p)) = []
    · simp only [hne, if_true]
      exact ⟨b, rfl⟩
    · exfalso
      obtain ⟨c, hc⟩ := List.exists_mem_of_ne_nil _ hne
      rw [List.mem_filter] at hc
      have hpq : ChildCall companies p c.ID := ⟨c, hc.1, by simpa using hc.2, rfl⟩
      have hq : ¬ Relation.TransGen (ChildCall companies) c.ID c.ID :=
        fun h => hno ⟨c.ID, Relation.ReflTransGen.single hpq, h⟩
      have := reached_ncard_lt companies p c.ID hpq hq
      omega
  | succ m ih =>
    intro p hcard hno b pre
    rw [printCompanyTree_succ, buildCompanyHierarchy_apply]
    by_cases hne : companies.filter (fun c => decide (c.PID = p)) = []
    · simp only [hne, if_true]
      exact ⟨b, rfl⟩
    · simp only [hne, if_false]
      apply foldlM_some
        (fun b p q => printCompanyTree (m + 1) b (buildCompanyHierarchy companies) p q)
      intro x hx b' q'
      have hc : x.2 ∈ companies.filter (fun c => decide (c.PID = p)) := by
        have := List.snd_mem_of_mem_enum hx
        exact this
      rw [List.mem_filter] at hc
      have hpq : ChildCall companies p x.2.ID := ⟨x.2, hc.1, by simpa using hc.2, rfl⟩
      have hq : ¬ Relation.TransGen (ChildCall companies) x.2.ID x.2.ID :=
        fun h => hno ⟨x.2.ID, Relation.ReflTransGen.single hpq, h⟩
      have hlt := reached_ncard_lt companies p x.2.ID hpq hq
      apply ih x.2.ID (by omega)
      rintro ⟨q, hreach, hcyc⟩
      exact hno ⟨q, Relation.ReflTransGen.head hpq hreach, hcyc⟩

/-- C23: printCompanyTree terminates exactly on forests with no cycle reachable from the
root.  For every company list, root id, builder and prefix, the rendering of the forest built by
buildCompanyHierarchy returns for some depth of recursion if and only if no company reachable
from the root through the child relation is its own descendant.  On the single company
(id 2, parent 2) rooted at 2 it returns for no depth; on the single company (id 5, parent 5)
rooted at 2, where the only cycle cannot be reached, it returns with nothing written. -/
theorem printCompanyTree_terminates_iff :
    (∀ (companies : List Company) (root : Int) (builder pre : String),
      (∃ fuel out,
        printCompanyTree fuel builder (buildCompanyHierarchy companies) root pre = some out)
      ↔ ¬ ReachableCycle companies root) ∧
    (∀ fuel, printCompanyTree fuel "" (buildCompanyHierarchy [⟨2, "A", 2⟩]) 2 "" = none) ∧
    printCompanyTree 1 "" (buildCompanyHierarchy [⟨5, "X", 5⟩]) 2 "" = some "" := by
  refine ⟨?_, ?_, by decide⟩
  · intro companies root builder pre
    rw [reachableCycle_iff]
    constructor
    · rintro ⟨fuel, out, hout⟩ hcyc
      rw [printCompanyTree_diverges companies fuel root hcyc builder pre] at hout
      exact Option.noConfusion hout
    · intro hno
      obtain ⟨o, ho⟩ := printCompanyTree_terminates_aux companies _ root (le_refl _) hno builder pre
      exact ⟨_, o, ho⟩
  · intro fuel
    exact printCompanyTree_diverges [⟨2, "A", 2⟩] fuel 2
      ⟨2, Relation.ReflTransGen.refl, Relation.TransGen.single ⟨⟨2, "A", 2⟩, by simp, rfl, rfl⟩⟩
      "" ""

/-- Witness for C23: the two-company forest rooted at 2 has no cycle, and its rendering
returns. -/
theorem printCompanyTree_terminates_iff_witness :
    (∃ fuel out,
      printCompanyTree fuel "" (buildCompanyHierarchy [⟨1, "A", 2⟩, ⟨3, "B", 1⟩]) 2 ""
        = some out) ∧
    ¬ ReachableCycle [⟨1, "A", 2⟩, ⟨3, "B", 1⟩] 2 :=
  ⟨⟨3, "└── A\n    └── B\n", by decide⟩,
    (printCompanyTree_terminates_iff.1 [⟨1, "A", 2⟩, ⟨3, "B", 1⟩] 2 "" "").1
      ⟨3, "└── A\n    └── B\n", by decide⟩⟩

/-! ## Certificate-trust classification -/

/-- C24: the certificate-trust classification is textual.  isCertError is false for the nil
error, and for an error it is true exactly when the message contains "x509:" or contains
"certificate signed by unknown authority"; so, for a URL whose request can be created, a first
attempt failing with any error whose message contains "x509:" is followed by the retry with
certificate verification disabled. -/
theorem isCertError_textual :
    isCertError none = false ∧
    (∀ e : GoError,
      isCertError (some e) = true ↔
        ((∃ a b : String, e.msg = a ++ "x509:" ++ b) ∨
          (∃ a b : String, e.msg = a ++ "certificate signed by unknown authority" ++ b))) ∧
    (∀ (env : Env) (url : String) (e : GoError),
      env.newRequest url = none → env.roundTrip false url = .error e →
      (∃ a b : String, e.msg = a ++ "x509:" ++ b) →
      (httpGetJSON env url).log = [.httpDo false url, .httpDo true url]) := by
  have hiff : ∀ e : GoError,
      isCertError (some e) = true ↔
        ((∃ a b : String, e.msg = a ++ "x509:" ++ b) ∨
          (∃ a b : String, e.msg = a ++ "certificate signed by unknown authority" ++ b)) := by
    intro e
    simp only [isCertError, Bool.or_eq_true, contains_iff]
  refine ⟨rfl, hiff, ?_⟩
  intro env url e hreq h1 hmsg
  have hc : isCertError (some e) = true := (hiff e).2 (Or.inl hmsg)
  cases h2 : env.roundTrip true url <;> simp [httpGetJSON, hreq, h1, hc, h2]

/-- Witness for C24: the request for the URL https://h/x509: is refused; the message of the
error quotes the URL, and the retry is made. -/
theorem isCertError_textual_witness :
    (httpGetJSON
      (Env.scripted (.error ⟨"Get \"https://h/x509:\": dial tcp: connection refused"⟩)
        (.error ⟨"Get \"https://h/x509:\": dial tcp: connection refused"⟩)
        ⟨0, "tok"⟩ ⟨0, []⟩ ⟨0, [], []⟩ ⟨0, [], ⟨0, 0, 0, 0⟩⟩)
      "https://h/x509:").log
      = [.httpDo false "https://h/x509:", .httpDo true "https://h/x509:"] :=
  isCertError_textual.2.2
    (Env.scripted (.error ⟨"Get \"https://h/x509:\": dial tcp: connection refused"⟩)
      (.error ⟨"Get \"https://h/x509:\": dial tcp: connection refused"⟩)
      ⟨0, "tok"⟩ ⟨0, []⟩ ⟨0, [], []⟩ ⟨0, [], ⟨0, 0, 0, 0⟩⟩)
    "https://h/x509:" ⟨"Get \"https://h/x509:\": dial tcp: connection refused"⟩ rfl rfl
    ⟨"Get \"https://h/", "\": dial tcp: connection refused", by decide⟩

/-! ## Link generation buttons -/

/-- C25: the links of the Generate RTSP/RTMP/HLS actions do not depend on the configured
ports.  A handler shows no link when there is no session, when no specific device is selected,
when the selection is not in the device map or when the dialog is cancelled; in every other case
it shows the link of the literal port (6604 for RTSP, 6604 for RTMP, 16604 for HLS) and of mode
1, built from the server entry, the session, the device id and the selected channel and stream,
for every configuration.  So each handler gives the same result under any two configurations,
and the RTMP link has port 6604 whatever config.RTMPPort is. -/
theorem button_links_use_literal_ports (config : AppConfig) (jsessionCache selectedDevice : String)
    (deviceMap : String → Option Device) (serverText channelSelected streamSelected : String)
    (generate : Bool) :
    rtspBtnLink config jsessionCache selectedDevice deviceMap serverText
        channelSelected streamSelected generate
      = (if jsessionCache = "" ∨ selectedDevice = "" ∨ selectedDevice = "All Devices"
            ∨ generate = false then none
          else (deviceMap selectedDevice).map (fun device =>
            streamURL "rtsp" serverText 6604 1 jsessionCache device.DID
              (channelNumber channelSelected) (streamNumber streamSelected))) ∧
    rtmpBtnLink config jsessionCache selectedDevice deviceMap serverText
        channelSelected streamSelected generate
      = (if jsessionCache = "" ∨ selectedDevice = "" ∨ selectedDevice = "All Devices"
            ∨ generate = false then none
          else (deviceMap selectedDevice).map (fun device =>
            streamURL "rtmp" serverText 6604 1 jsessionCache device.DID
              (channelNumber channelSelected) (streamNumber streamSelected))) ∧
    hlsBtnLink config jsessionCache selectedDevice deviceMap serverText
        channelSelected streamSelected generate
      = (if jsessionCache = "" ∨ selectedDevice = "" ∨ selectedDevice = "All Devices"
            ∨ generate = false then none
          else (deviceMap selectedDevice).map (fun device =>
            hlsURL serverText 16604 1 device.DID
              (channelNumber channelSelected) (streamNumber streamSelected) jsessionCache)) ∧
    (∀ config' : AppConfig,
      rtspBtnLink config jsessionCache selectedDevice deviceMap serverText
          channelSelected streamSelected generate
        = rtspBtnLink config' jsessionCache selectedDevice deviceMap serverText
          channelSelected streamSelected generate ∧
      rtmpBtnLink config jsessionCache selectedDevice deviceMap serverText
          channelSelected streamSelected generate
        = rtmpBtnLink config' jsessionCache selectedDevice deviceMap serverText
          channelSelected streamSelected generate ∧
      hlsBtnLink config jsessionCache selectedDevice deviceMap serverText
          channelSelected streamSelected generate
        = hlsBtnLink config' jsessionCache selectedDevice deviceMap serverText
          channelSelected streamSelected generate) := by
  refine ⟨?_, ?_, ?_, ?_⟩
  · unfold rtspBtnLink
    by_cases h1 : jsessionCache = ""
    · simp [h1]
    · by_cases h2 : selectedDevice = ""
      · simp [h1, h2]
      · by_cases h3 : selectedDevice = "All Devices"
        · simp [h1, h3]
        · cases generate with
          | false => cases hd : deviceMap selectedDevice <;> simp [h1, h2, h3]
          | true =>
            cases hd : deviceMap selectedDevice with
            | none => simp [h1, h2, h3]
            | some device =>
              simp [h1, h2, h3, GenerateRTSPLink_eq]
  · unfold rtmpBtnLink
    by_cases h1 : jsessionCache = ""
    · simp [h1]
    · by_cases h2 : selectedDevice = ""
      · simp [h1, h2]
      · by_cases h3 : selectedDevice = "All Devices"
        · simp [h1, h3]
        · cases generate with
          | false => cases hd : deviceMap selectedDevice <;> simp [h1, h2, h3]
          | true =>
            cases hd : deviceMap selectedDevice with
            | none => simp [h1, h2, h3]
            | some device =>
              simp [h1, h2, h3, GenerateRTMPLink_eq]
  · unfold hlsBtnLink
    by_cases h1 : jsessionCache = ""
    · simp [h1]
    · by_cases h2 : selectedDevice = ""
      · simp [h1, h2]
      · by_cases h3 : selectedDevice = "All Devices"
        · simp [h1, h3]
        · cases generate with
          | false => cases hd : deviceMap selectedDevice <;> simp [h1, h2, h3]
          | true =>
            cases hd : deviceMap selectedDevice with
            | none => simp [h1, h2, h3]
            | some device =>
              simp [h1, h2, h3, GenerateHLSLink_eq]
  · intro config'
    simp only [rtspBtnLink, rtmpBtnLink, hlsBtnLink, GenerateRTSPLink_eq, GenerateRTMPLink_eq,
      GenerateHLSLink_eq]
    simp

/-- Witness for C25: with the ports configured as 1935 (RTMP), 554 (RTSP) and 8080 (HLS), a
session, the device D1 selected, channel 2 and the main stream, the three buttons give the
links with the ports 6604, 6604 and 16604. -/
theorem button_links_use_literal_ports_witness :
    rtspBtnLink ⟨"https://cloud.samsonix.com", 443, 1935, 554, 8080⟩
        "tok" "V1 (D1)" (fun _ => some ⟨"V1", "D1"⟩) "cloud.samsonix.com" "Channel 2"
        "Main Stream (0)" true
      = some
        "rtsp://cloud.samsonix.com:6604/3/3?AVType=1&jsession=tok&DevIDNO=D1&Channel=2&Stream=0" ∧
    rtmpBtnLink ⟨"https://cloud.samsonix.com", 443, 1935, 554, 8080⟩
        "tok" "V1 (D1)" (fun _ => some ⟨"V1", "D1"⟩) "cloud.samsonix.com" "Channel 2"
        "Main Stream (0)" true
      = some
        "rtmp://cloud.samsonix.com:6604/3/3?AVType=1&jsession=tok&DevIDNO=D1&Channel=2&Stream=0" ∧
    hlsBtnLink ⟨"https://cloud.samsonix.com", 443, 1935, 554, 8080⟩
        "tok" "V1 (D1)" (fun _ => some ⟨"V1", "D1"⟩) "cloud.samsonix.com" "Channel 2"
        "Main Stream (0)" true
      = some "https://cloud.samsonix.com:16604/hls/1_D1_2_0.m3u8?jsession=tok" :=
  ⟨(button_links_use_literal_ports ⟨"https://cloud.samsonix.com", 443, 1935, 554, 8080⟩
      "tok" "V1 (D1)" (fun _ => some ⟨"V1", "D1"⟩) "cloud.samsonix.com" "Channel 2"
      "Main Stream (0)" true).1.trans (by decide),
    (button_links_use_literal_ports ⟨"https://cloud.samsonix.com", 443, 1935, 554, 8080⟩
      "tok" "V1 (D1)" (fun _ => some ⟨"V1", "D1"⟩) "cloud.samsonix.com" "Channel 2"
      "Main Stream (0)" true).2.1.trans (by decide),
    (button_links_use_literal_ports ⟨"https://cloud.samsonix.com", 443, 1935, 554, 8080⟩
      "tok" "V1 (D1)" (fun _ => some ⟨"V1", "D1"⟩) "cloud.samsonix.com" "Channel 2"
      "Main Stream (0)" true).2.2.1.trans (by decide)⟩

/-! ## Server host name -/

theorem splitChars_head (c : Char) (s : List Char) :
    (strings.splitChars [c] 0 s).head? = some (s.takeWhile (fun x => x != c)) := by
  induction s with
  | nil => rfl
  | cons x xs ih =>
    by_cases hx : x = c
    · subst hx
      simp [strings.splitChars, List.isPrefixOf]
    · have hne : (c == x) = false := by
        simp only [beq_eq_false_iff_ne, ne_eq]
        exact fun h => hx h.symm
      rw [strings.splitChars]
      simp only [List.isPrefixOf, hne, Bool.false_and, Bool.false_eq_true, if_false]
      cases hrec : strings.splitChars [c] 0 xs with
      | nil => rw [hrec] at ih; simp at ih
      | cons part parts =>
        rw [hrec] at ih
        simp only [List.head?_cons, Option.some.injEq] at ih
        simp [List.takeWhile_cons, hx, ih]

theorem firstPart_split (s : String) (c : Char) :
    firstPart (strings.Split s (String.mk [c]))
      = String.mk (s.data.takeWhile (fun x => x != c)) := by
  unfold firstPart strings.Split
  have h := splitChars_head c s.data
  cases hs : strings.splitChars [c] 0 s.data with
  | nil => rw [hs] at h; simp at h
  | cons part parts =>
    rw [hs] at h
    simp only [List.head?_cons, Option.some.injEq] at h
    simp [h]

theorem getServerHostname_eq (config : AppConfig) :
    getServerHostname config
      = String.mk
          (((strings.trimPrefixChars
              (strings.trimPrefixChars config.ServerURL.data "https://".data)
              "http://".data).takeWhile (fun x => x != '/')).takeWhile (fun x => x != ':')) := by
  unfold getServerHostname
  simp only []
  rw [show (":" : String) = String.mk [':'] from rfl,
    show ("/" : String) = String.mk ['/'] from rfl, firstPart_split, firstPart_split]
  rfl

theorem takeWhile_host (h rest : List Char) (h1 : '/' ∉ h) (h2 : ':' ∉ h)
    (hrest : rest = [] ∨ (∃ t, rest = '/' :: t) ∨ (∃ t, rest = ':' :: t)) :
    ((h ++ rest).takeWhile (fun x => x != '/')).takeWhile (fun x => x != ':') = h := by
  have a1 : ∀ x ∈ h, (x != '/') = true := by
    intro x hx
    simp only [bne_iff_ne, ne_eq]
    exact fun e => h1 (e ▸ hx)
  have a2 : ∀ x ∈ h, (x != ':') = true := by
    intro x hx
    simp only [bne_iff_ne, ne_eq]
    exact fun e => h2 (e ▸ hx)
  rw [List.takeWhile_append_of_pos a1]
  rcases hrest with rfl | ⟨t, rfl⟩ | ⟨t, rfl⟩
  · simp only [List.takeWhile_nil, List.append_nil]
    rw [← List.append_nil h, List.takeWhile_append_of_pos a2]
    simp
  · simp only [List.takeWhile_cons, bne_self_eq_false, Bool.false_eq_true, if_false,
      List.append_nil]
    rw [← List.append_nil h, List.takeWhile_append_of_pos a2]
    simp
  · rw [List.takeWhile_append_of_pos a2]
    have e : ((':' :: t).takeWhile (fun x => x != '/')).takeWhile (fun x => x != ':') = [] := by
      simp [List.takeWhile_cons]
    rw [e, List.append_nil]

/-- C26 (as amended): getServerHostname strips scheme, path and port.  For every configured
ServerURL the result contains neither '/' nor ':'.  Whenever ServerURL is "http://" + h + rest,
or is "https://" + h + rest where h + rest does not begin with "http://", with h non-empty and
containing no '/' or ':', and rest empty or beginning with '/' or ':', the result is exactly
h. -/
theorem getServerHostname_strips (config : AppConfig) :
    ('/' ∉ (getServerHostname config).data ∧ ':' ∉ (getServerHostname config).data) ∧
    (∀ h rest : String, h ≠ "" → '/' ∉ h.data → ':' ∉ h.data →
      (rest = "" ∨ (∃ t : String, rest = "/" ++ t) ∨ (∃ t : String, rest = ":" ++ t)) →
      (config.ServerURL = "http://" ++ h ++ rest ∨
        (config.ServerURL = "https://" ++ h ++ rest ∧
          ¬ ∃ t : String, h ++ rest = "http://" ++ t)) →
      getServerHostname config = h) := by
  constructor
  · rw [getServerHostname_eq]
    constructor
    · intro hmem
      have h1 := (List.takeWhile_sublist _).subset hmem
      have h2 := List.mem_takeWhile_imp h1
      simp at h2
    · intro hmem
      have h2 := List.mem_takeWhile_imp hmem
      simp at h2
  · intro h rest _ h1 h2 hrest hurl
    have hrest' : rest.data = [] ∨ (∃ t, rest.data = '/' :: t) ∨ (∃ t, rest.data = ':' :: t) := by
      rcases hrest with rfl | ⟨t, rfl⟩ | ⟨t, rfl⟩
      · exact Or.inl rfl
      · exact Or.inr (Or.inl ⟨t.data, by simp [String.data_append]⟩)
      · exact Or.inr (Or.inr ⟨t.data, by simp [String.data_append]⟩)
    have key : strings.trimPrefixChars
        (strings.trimPrefixChars config.ServerURL.data "https://".data) "http://".data
        = h.data ++ rest.data := by
      rcases hurl with hurl | ⟨hurl, hno⟩
      · rw [hurl]
        simp [strings.trimPrefixChars, String.data_append, List.isPrefixOf]
      · rw [hurl]
        have e1 : strings.trimPrefixChars ("https://" ++ h ++ rest).data "https://".data
            = h.data ++ rest.data := by
          simp [strings.trimPrefixChars, String.data_append, List.isPrefixOf]
        rw [e1]
        unfold strings.trimPrefixChars
        have hnp : ("http://".data.isPrefixOf (h.data ++ rest.data)) = false := by
          rw [Bool.eq_false_iff]
          intro hp
          rw [ List.isPrefixOf_iff_prefix] at hp
          obtain ⟨t, ht⟩ := hp
          apply hno
          refine ⟨String.mk t, ?_⟩
          apply String.ext
          simp only [String.data_append]
          exact ht.symm
        rw [hnp]
        simp
    rw [getServerHostname_eq, key, takeWhile_host h.data rest.data h1 h2 hrest']

/-- Witness for C26: the server URL https://cloud.samsonix.com:8443/api gives
cloud.samsonix.com. -/
theorem getServerHostname_strips_witness :
    getServerHostname ⟨"https://cloud.samsonix.com:8443/api", 443, 1935, 6604, 16604⟩
      = "cloud.samsonix.com" :=
  (getServerHostname_strips ⟨"https://cloud.samsonix.com:8443/api", 443, 1935, 6604, 16604⟩).2
    "cloud.samsonix.com" ":8443/api" (by decide) (by decide) (by decide)
    (Or.inr (Or.inr ⟨"8443/api", by decide⟩))
    (Or.inr ⟨by decide, by
      rintro ⟨t, ht⟩
      have hd := congrArg String.data ht
      simp only [String.data_append, List.cons_append, List.cons.injEq] at hd
      exact absurd hd.1 (by decide)⟩)

/-- C26 fails as stated: the server URL https://http://x is "https://" + h + rest with h =
"http", which is non-empty, contains no '/' or ':' and does not begin with "http://", and with
rest = "://x", which begins with ':'; the result is "x", not h. -/
theorem getServerHostname_counterexample :
    ("https://http://x" : String) = "https://" ++ "http" ++ "://x" ∧
    '/' ∉ ("http" : String).data ∧ ':' ∉ ("http" : String).data ∧
    strings.HasPrefix "http" "http://" = false ∧
    ("://x" : String) = ":" ++ "//x" ∧
    getServerHostname ⟨"https://http://x", 443, 1935, 6604, 16604⟩ = "x" ∧
    getServerHostname ⟨"https://http://x", 443, 1935, 6604, 16604⟩ ≠ "http" := by
  decide


end CmsvApi
